import Mathlib

set_option maxRecDepth 8000
set_option maxHeartbeats 1000000

/-! Verification of the schema-comparison engine: shallow embedding of
`comparators.py` and `sql_generator.py` (Firebird schema diff / DDL synthesis),
together with proofs of the specified properties. Python strings are embedded
as `String`, Python `None`-able values as `Option`, dictionaries as
association lists or functions, and the mutable per-run SQL accumulator as an
explicit state record threaded through every synthesizer call. -/

/-! ## Generic Python-semantics helpers -/

/-- Python `str.upper()` restricted to ASCII, character by character. -/
def pyUpper (s : String) : String := ⟨s.data.map Char.toUpper⟩

/-- Python whitespace characters recognised by `str.strip()`. -/
def isPySpace (c : Char) : Bool :=
  c = ' ' || c = '\t' || c = '\n' || c = '\r' || c = '\x0b' || c = '\x0c'

/-- Python `str.strip()`: drop leading and trailing whitespace. -/
def pyStrip (s : String) : String :=
  ⟨((s.data.dropWhile isPySpace).reverse.dropWhile isPySpace).reverse⟩

/-- Leading-segment test: `startsList n h` is true when `n` is a leading
segment of `h` (Python `str.startswith`). -/
def startsList : List Char → List Char → Bool
  | [], _ => true
  | _ :: _, [] => false
  | a :: as, b :: bs => a == b && startsList as bs

/-- Containment test: `subList n h` is true when `n` occurs contiguously
inside `h` (Python `in` on strings). -/
def subList (n : List Char) : List Char → Bool
  | [] => startsList n []
  | c :: cs => startsList n (c :: cs) || subList n cs

/-- The string contains no newline character. -/
def nlFree (s : String) : Prop := '\n' ∉ s.data

instance decNlFree (s : String) : Decidable (nlFree s) :=
  inferInstanceAs (Decidable ('\n' ∉ s.data))

/-- Lexicographic `≤` on character lists by code point, as Python compares
strings. -/
def pyLe : List Char → List Char → Bool
  | [], _ => true
  | _ :: _, [] => false
  | a :: as, b :: bs => if a < b then true else if a = b then pyLe as bs else false

/-- Insert a string into a list, keeping lexicographically smaller strings in
front. -/
def insertSorted (x : String) : List String → List String
  | [] => [x]
  | y :: ys => if pyLe x.data y.data then x :: y :: ys else y :: insertSorted x ys

/-- Insertion sort on strings, embedding Python `sorted` on string sets. -/
def sortStr : List String → List String
  | [] => []
  | x :: xs => insertSorted x (sortStr xs)

/-- Python `sorted(set(a) - set(b))`. -/
def sortedSetDiff (a b : List String) : List String :=
  sortStr ((a.filter (fun x => decide (x ∉ b))).dedup)

/-- Python `sorted(set(a) & set(b))`. -/
def sortedSetInter (a b : List String) : List String :=
  sortStr ((a.filter (fun x => decide (x ∈ b))).dedup)

/-- Python `sep.join(l)`. -/
def joinSep (sep : String) : List String → String
  | [] => ""
  | [x] => x
  | x :: y :: ys => x ++ sep ++ joinSep sep (y :: ys)

/-- Concatenate the strings mapped from a list (`f x₀ ++ f x₁ ++ …`). -/
def listFlat {α β : Type} (f : α → List β) : List α → List β
  | [] => []
  | x :: xs => f x ++ listFlat f xs

/-- Python `str(v)` for an optional integer (`None` prints as `"None"`). -/
def optIntStr : Option Int → String
  | none => "None"
  | some n => toString n

/-- Python `str(v)` for an optional string (`None` prints as `"None"`). -/
def optStrStr : Option String → String
  | none => "None"
  | some s => s

/-- Python `repr` of a string without escape-worthy characters. -/
def pyReprStr (s : String) : String := "\x27" ++ s ++ "\x27"

/-- Python `str` of a list of strings, e.g. `['A', 'B']`. -/
def pyReprList (l : List String) : String :=
  "[" ++ joinSep ", " (l.map pyReprStr) ++ "]"

/-- Python `str(b)` of a boolean. -/
def pyBoolStr (b : Bool) : String := if b then "True" else "False"

/-- Dictionary access `d[k]` on an association list (keys of the embedded
dictionaries are unique; the default is never reached at call sites, which
always guard membership). -/
def dlookup {α : Type} : List (String × α) → String → α → α
  | [], _, d => d
  | (k', v) :: rest, k, d => if k' = k then v else dlookup rest k d

/-! ## Data model: catalog snapshots (output shapes of `database_connection.py`) -/

/-- One entry of the dictionary built by `get_fields` (database_connection.py,
lines 293-306): `tipo` is the display type, `tipo_base` the raw catalog type
name, and the remaining keys are carried verbatim. -/
structure FieldProps where
  tipo : String
  tipo_base : String
  longitud : Option Int
  precision : Option Int
  escala : Option Int
  nullable : String
  dominio : Option String
  default : Option String
  computed : String
  computed_source : Option String
  orden : Option Int
  charset_info : String
deriving DecidableEq

def defaultFieldProps : FieldProps :=
  ⟨"", "", none, none, none, "", none, none, "", none, none, ""⟩

/-- One entry of the dictionary built by `get_indexes`. -/
structure IndexInfo where
  unique : Bool
  fields : String
deriving DecidableEq

def defaultIndexInfo : IndexInfo := ⟨false, ""⟩

/-- One entry of the dictionary built by `get_foreign_keys`. -/
structure FKInfo where
  fields : List String
  referenced_table : String
  referenced_fields : List String
  update_rule : String
  delete_rule : String
deriving DecidableEq

def defaultFKInfo : FKInfo := ⟨[], "", [], "", ""⟩

/-- One entry of the dictionary built by `get_triggers`. -/
structure TriggerInfo where
  type : Option Int
  source : String
  table : String
  sequence : Option Int
  inactive : Option Int
deriving DecidableEq

def defaultTriggerInfo : TriggerInfo := ⟨none, "", "", none, none⟩

/-- One entry of the dictionary built by `get_procedures`. -/
structure ProcInfo where
  source : String
deriving DecidableEq

def defaultProcInfo : ProcInfo := ⟨""⟩

/-- Python `str` of an `IndexInfo` dictionary. -/
def indexInfoStr (i : IndexInfo) : String :=
  "\x7b\x27unique\x27: " ++ pyBoolStr i.unique ++ ", \x27fields\x27: " ++ pyReprStr i.fields ++ "\x7d"

/-- Python `str` of an `FKInfo` dictionary. -/
def fkInfoStr (f : FKInfo) : String :=
  "\x7b\x27fields\x27: " ++ pyReprList f.fields ++ ", \x27referenced_table\x27: " ++
    pyReprStr f.referenced_table ++ ", \x27referenced_fields\x27: " ++
    pyReprList f.referenced_fields ++ ", \x27update_rule\x27: " ++ pyReprStr f.update_rule ++
    ", \x27delete_rule\x27: " ++ pyReprStr f.delete_rule ++ "\x7d"

/-- Python `str` of a `TriggerInfo` dictionary. -/
def triggerInfoStr (t : TriggerInfo) : String :=
  "\x7b\x27type\x27: " ++ optIntStr t.type ++ ", \x27source\x27: " ++ pyReprStr t.source ++
    ", \x27table\x27: " ++ pyReprStr t.table ++ ", \x27sequence\x27: " ++ optIntStr t.sequence ++
    ", \x27inactive\x27: " ++ optIntStr t.inactive ++ "\x7d"

/-- Python `str` of a `ProcInfo` dictionary. -/
def procInfoStr (p : ProcInfo) : String :=
  "\x7b\x27source\x27: " ++ pyReprStr p.source ++ "\x7d"

/-- A snapshot of one database as seen through `database_connection.py`: every
metadata getter, with `genValue` allowed to fail (the `_get_generator_value`
query can raise). -/
structure DBSnap where
  tables : List String
  views : List String
  generators : List String
  fields : String → List (String × FieldProps)
  indexes : String → List (String × IndexInfo)
  pks : String → List String
  fks : String → List (String × FKInfo)
  triggers : List (String × TriggerInfo)
  procedures : List (String × ProcInfo)
  viewDef : String → String
  genValue : String → Except Unit (Option Int)

/-- Python `try: v = _get_generator_value(...) except Exception: v = None`. -/
def tryRead : Except Unit (Option Int) → Option Int
  | .ok v => v
  | .error _ => none

/-- One row appended to the report list: sheet name, object name, status, two
detail strings, two SQL fragments and the change summary
(`agregar_fila_solo_diferencias`'s positional arguments). -/
structure Record where
  hoja : String
  nombre : String
  estatus : String
  detalle1 : String
  detalle2 : String
  sql_bd1 : String
  sql_bd2 : String
  diferencia : String
deriving DecidableEq

/-- The two `defaultdict(list)` accumulators of `SQLGenerator` (a key that was
never appended to maps to `[]`, exactly how an absent `defaultdict` key
behaves when the final script is assembled). -/
structure GenState where
  sql_objects_bd1 : String → List String
  sql_objects_bd2 : String → List String

def emptyGenState : GenState := ⟨fun _ => [], fun _ => []⟩

namespace SQLGenerator

/-- sql_generator.py lines 30-40: fixed creation order, least dependent first. -/
def creation_order : List String :=
  ["GENERADOR", "TABLA", "CAMPO", "PRIMARY_KEY", "INDICE", "FOREIGN_KEY",
   "VISTA", "PROCEDIMIENTO", "TRIGGER"]

/-- sql_generator.py lines 42-57: append `sql` to the accumulator chosen by
`destino`, under key `tipo`. The GUI signal emission has no effect on the
accumulators and is not modelled. -/
def emit_sql (tipo sql destino : String) (st : GenState) : GenState :=
  if destino = "BD1" then
    { st with sql_objects_bd1 :=
        fun k => if k = tipo then st.sql_objects_bd1 k ++ [sql] else st.sql_objects_bd1 k }
  else if destino = "BD2" then
    { st with sql_objects_bd2 :=
        fun k => if k = tipo then st.sql_objects_bd2 k ++ [sql] else st.sql_objects_bd2 k }
  else st

/-- The statements of `sql_objects`, flattened in `creation_order` (the loop
nest of `_build_final_sql`, sql_generator.py lines 69-75, viewed as the list
of statements it concatenates; a type absent from the defaultdict contributes
the empty list, exactly like the skipped `in` check). -/
def _build_final_list (sql_objects : String → List String) : List String :=
  listFlat sql_objects creation_order

/-- sql_generator.py lines 59-77: concatenate every statement, in creation
order, each followed by a blank line. -/
def _build_final_sql (sql_objects : String → List String) : String :=
  ((_build_final_list sql_objects).map (fun sql => sql ++ "\n\n")).foldl (· ++ ·) ""

/-- sql_generator.py lines 79-81. -/
def get_sql_bd1 (st : GenState) : String := _build_final_sql st.sql_objects_bd1

/-- sql_generator.py lines 83-85. -/
def get_sql_bd2 (st : GenState) : String := _build_final_sql st.sql_objects_bd2

/-- sql_generator.py lines 104-116: the fixed Firebird type lookup table. -/
def type_mapping : String → Option String
  | "LONG" => some "INTEGER"
  | "SHORT" => some "SMALLINT"
  | "INT64" => some "BIGINT"
  | "QUAD" => some "BIGINT"
  | "VARYING" => some "VARCHAR"
  | "FLOAT" => some "FLOAT"
  | "DOUBLE" => some "DOUBLE PRECISION"
  | "TIMESTAMP" => some "TIMESTAMP"
  | "DATE" => some "DATE"
  | "TIME" => some "TIME"
  | "TEXT" => some "BLOB SUB_TYPE TEXT"
  | _ => none

/-- sql_generator.py lines 88-146 (`_get_sql_type`): convert field properties
to a SQL type string. A non-empty display type containing both parentheses is
returned (upper-cased, as the source upper-cases before the check); otherwise
the base type is pushed through the lookup table and qualified with
length/precision. -/
def _get_sql_type (props : FieldProps) : String :=
  let tipo_base := if props.tipo_base ≠ "" then pyUpper props.tipo_base else ""
  let tipo_completo := if props.tipo ≠ "" then pyUpper props.tipo else tipo_base
  if tipo_completo.data.contains '(' && tipo_completo.data.contains ')' then
    tipo_completo
  else
    let tipo_base :=
      match type_mapping tipo_base with
      | some m => m
      | none =>
        match type_mapping tipo_completo with
        | some m => m
        | none => if tipo_completo ≠ "" then tipo_completo else tipo_base
    if tipo_base = "CHAR" ∨ tipo_base = "VARCHAR" ∨ tipo_base = "CHARACTER VARYING" then
      match props.longitud with
      | some n => if 0 < n then tipo_base ++ "(" ++ toString n ++ ")" else tipo_base ++ "(1)"
      | none => tipo_base ++ "(1)"
    else if tipo_base = "DECIMAL" ∨ tipo_base = "NUMERIC" then
      match props.precision with
      | some p =>
        match props.escala with
        | some e =>
          if e ≠ 0 then tipo_base ++ "(" ++ toString p ++ "," ++ toString e.natAbs ++ ")"
          else tipo_base ++ "(" ++ toString p ++ ")"
        | none => tipo_base ++ "(" ++ toString p ++ ")"
      | none => tipo_base
    else if tipo_base = "BLOB" then
      if props.longitud = some 1 then "BLOB SUB_TYPE TEXT" else "BLOB"
    else tipo_base

/-- The `DEFAULT …` suffix shared by the field generators (`if props['default']:`
followed by stripping a leading `DEFAULT ` keyword from the stored source). -/
def defaultClause (props : FieldProps) : String :=
  match props.default with
  | none => ""
  | some d =>
    if d ≠ "" then
      " DEFAULT " ++ (if startsList "DEFAULT ".data (pyUpper d).data then ⟨d.data.drop 8⟩ else d)
    else ""

/-- The `COMPUTED BY (…)` suffix of a column definition in
`generate_create_table`. -/
def computedClause (props : FieldProps) : String :=
  match props.computed_source with
  | none => ""
  | some src =>
    if props.computed = "SI" ∧ src ≠ "" then
      " COMPUTED BY (" ++
        (if startsList "COMPUTED BY ".data (pyUpper src).data then ⟨src.data.drop 12⟩ else src) ++ ")"
    else ""

/-- One `    campo TYPE …` line of a CREATE TABLE statement
(sql_generator.py lines 159-187). -/
def fieldDefText (campo : String) (props : FieldProps) : String :=
  "    " ++ campo ++ " " ++ _get_sql_type props ++
    (if props.charset_info ≠ "" then props.charset_info else "") ++
    (if props.nullable = "NO" then " NOT NULL" else "") ++
    defaultClause props ++ computedClause props

/-- The CREATE TABLE text of `generate_create_table` (PK never inlined). -/
def createTableText (table_name : String) (campos : List (String × FieldProps)) : String :=
  "CREATE TABLE " ++ table_name ++ " (\n" ++
    joinSep ",\n" (campos.map (fun p => fieldDefText p.1 p.2)) ++ "\n);\n"

/-- The ALTER TABLE … ADD text of `generate_create_field`
(sql_generator.py lines 203-241). -/
def createFieldText (table_name campo : String) (props : FieldProps) : String :=
  "ALTER TABLE " ++ table_name ++ " ADD " ++ campo ++ " " ++ _get_sql_type props ++
    (if props.charset_info ≠ "" then props.charset_info
     else " CHARACTER SET NONE COLLATE NONE") ++
    (if props.nullable = "NO" then " NOT NULL" else "") ++
    defaultClause props ++ ";\n"

/-- The CREATE INDEX text of `generate_create_index`
(sql_generator.py lines 243-266), with the `RDB$` rename to
`IDX_<table>_<firstfield>`. -/
def createIndexText (table_name index_name : String) (info : IndexInfo) : String :=
  let unique := if info.unique then "UNIQUE " else ""
  let index_name :=
    if startsList "RDB$".data index_name.data then
      let fields : String :=
        if info.fields.data.contains ',' then ⟨info.fields.data.takeWhile (· ≠ ',')⟩
        else info.fields
      "IDX_" ++ table_name ++ "_" ++ fields
    else index_name
  "CREATE " ++ unique ++ "INDEX " ++ index_name ++ " ON " ++ table_name ++
    " (" ++ info.fields ++ ");\n"

/-- The ALTER TABLE … ADD CONSTRAINT text of `generate_create_primary_key`. -/
def createPKText (table_name : String) (pk_fields : List String) : String :=
  "ALTER TABLE " ++ table_name ++ " ADD CONSTRAINT PK_" ++ table_name ++
    " PRIMARY KEY (" ++ joinSep ", " pk_fields ++ ");\n"

/-- The ALTER TABLE … ADD CONSTRAINT … FOREIGN KEY text of
`generate_create_foreign_key`. -/
def createFKText (table_name fk_name : String) (info : FKInfo) : String :=
  "ALTER TABLE " ++ table_name ++ " ADD CONSTRAINT " ++ fk_name ++
    " FOREIGN KEY (" ++ joinSep ", " info.fields ++ ") REFERENCES " ++
    info.referenced_table ++ " (" ++ joinSep ", " info.referenced_fields ++ ");\n"

/-- The CREATE TRIGGER text of `generate_create_trigger`
(sql_generator.py lines 308-342). -/
def createTriggerText (trigger_name : String) (info : TriggerInfo) : String :=
  let trigger_name :=
    if startsList "RDB$".data trigger_name.data then
      "TRG_" ++ info.table ++ "_" ++ (⟨trigger_name.data.drop 4⟩ : String)
    else trigger_name
  let inactive := if (match info.inactive with | some n => decide (n ≠ 0) | none => false) then "INACTIVE " else ""
  let trigger_type_desc :=
    match info.type with
    | some 1 => "BEFORE INSERT"
    | some 2 => "AFTER INSERT"
    | some 3 => "BEFORE UPDATE"
    | some 4 => "AFTER UPDATE"
    | some 5 => "BEFORE DELETE"
    | some 6 => "AFTER DELETE"
    | t => "/* Tipo: " ++ optIntStr t ++ " */"
  "CREATE TRIGGER " ++ trigger_name ++ " " ++ inactive ++ trigger_type_desc ++ "\n" ++
    "FOR " ++ info.table ++ "\n" ++ info.source ++ "\n"

/-- The CREATE PROCEDURE text of `generate_create_procedure`. -/
def createProcedureText (procedure_name : String) (info : ProcInfo) : String :=
  let procedure_name :=
    if startsList "RDB$".data procedure_name.data then
      "SP_" ++ (⟨procedure_name.data.drop 4⟩ : String)
    else procedure_name
  "CREATE PROCEDURE " ++ procedure_name ++ "\nAS\nBEGIN\n" ++ info.source ++ "\nEND;\n"

/-- The CREATE VIEW text of `generate_create_view`. -/
def createViewText (view_name view_definition : String) : String :=
  let view_name :=
    if startsList "RDB$".data view_name.data then
      "VW_" ++ (⟨view_name.data.drop 4⟩ : String)
    else view_name
  "CREATE VIEW " ++ view_name ++ " AS\n" ++ view_definition ++ ";\n"

/-- The CREATE GENERATOR text of `generate_create_generator`
(sql_generator.py lines 389-409), with the optional SET GENERATOR line for a
known positive value. -/
def createGeneratorText (generator_name : String) (value : Option Int) : String :=
  let generator_name :=
    if startsList "RDB$".data generator_name.data then
      "GEN_" ++ (⟨generator_name.data.drop 4⟩ : String)
    else generator_name
  "CREATE GENERATOR " ++ generator_name ++ ";\n" ++
    (match value with
     | some v => if 0 < v then "SET GENERATOR " ++ generator_name ++ " TO " ++ toString v ++ ";\n" else ""
     | none => "")

/-- sql_generator.py lines 268-284: non-empty field lists produce the PK
constraint statement and record it under `PRIMARY_KEY`; an empty list produces
the empty string and records nothing. -/
def generate_create_primary_key (table_name : String) (pk_fields : List String)
    (destino : String) (st : GenState) : String × GenState :=
  if pk_fields.isEmpty then ("", st)
  else
    let sql := createPKText table_name pk_fields
    (sql, emit_sql "PRIMARY_KEY" sql destino st)

/-- sql_generator.py lines 148-201: emit the CREATE TABLE under `TABLA`, then
(if the source table has a primary key) the PK constraint, returning the
concatenation exactly as the source does. -/
def generate_create_table (table_name : String) (campos : List (String × FieldProps))
    (conexion : DBSnap) (destino : String) (st : GenState) : String × GenState :=
  let pk := conexion.pks table_name
  let sql := createTableText table_name campos
  let st := emit_sql "TABLA" sql destino st
  if pk.isEmpty then (sql, st)
  else
    let r := generate_create_primary_key table_name pk destino st
    (sql ++ "\n" ++ r.1, r.2)

/-- sql_generator.py lines 203-241. -/
def generate_create_field (table_name campo : String) (props : FieldProps)
    (destino : String) (st : GenState) : String × GenState :=
  let sql := createFieldText table_name campo props
  (sql, emit_sql "CAMPO" sql destino st)

/-- sql_generator.py lines 243-266. -/
def generate_create_index (table_name index_name : String) (info : IndexInfo)
    (destino : String) (st : GenState) : String × GenState :=
  let sql := createIndexText table_name index_name info
  (sql, emit_sql "INDICE" sql destino st)

/-- sql_generator.py lines 286-306. -/
def generate_create_foreign_key (table_name fk_name : String) (info : FKInfo)
    (destino : String) (st : GenState) : String × GenState :=
  let sql := createFKText table_name fk_name info
  (sql, emit_sql "FOREIGN_KEY" sql destino st)

/-- sql_generator.py lines 308-342. -/
def generate_create_trigger (trigger_name : String) (info : TriggerInfo)
    (destino : String) (st : GenState) : String × GenState :=
  let sql := createTriggerText trigger_name info
  (sql, emit_sql "TRIGGER" sql destino st)

/-- sql_generator.py lines 344-366. -/
def generate_create_procedure (procedure_name : String) (info : ProcInfo)
    (destino : String) (st : GenState) : String × GenState :=
  let sql := createProcedureText procedure_name info
  (sql, emit_sql "PROCEDIMIENTO" sql destino st)

/-- sql_generator.py lines 368-387. -/
def generate_create_view (view_name view_definition : String)
    (destino : String) (st : GenState) : String × GenState :=
  let sql := createViewText view_name view_definition
  (sql, emit_sql "VISTA" sql destino st)

/-- sql_generator.py lines 389-409. -/
def generate_create_generator (generator_name : String) (value : Option Int)
    (destino : String) (st : GenState) : String × GenState :=
  let sql := createGeneratorText generator_name value
  (sql, emit_sql "GENERADOR" sql destino st)

/-- sql_generator.py lines 410-438: the four-parameter `ALTER COLUMN` variant
bound to the `SQLGenerator` class. It never performs a feasibility check and
never comments its output. -/
def generate_alter_field (table_name campo : String) (props : FieldProps)
    (destino : String) (st : GenState) : String × GenState :=
  let sql :=
    "ALTER TABLE " ++ table_name ++ " ALTER COLUMN " ++ campo ++ " TYPE " ++
      _get_sql_type props ++
      (if props.charset_info ≠ "" then props.charset_info else "") ++
      (if props.nullable = "NO" then " NOT NULL" else "") ++
      defaultClause props ++ ";\n"
  (sql, emit_sql "CAMPO" sql destino st)

end SQLGenerator

namespace comparators

open SQLGenerator

/-- comparators.py lines 64-80: append one row only when the status carries
`DIFERENTE` or `NO EXISTE` (Python `in` on the status string); returned here
as the list of rows to append. -/
def agregar_fila_solo_diferencias (hoja nombre estatus detalle1 detalle2 : String)
    (sql_bd1 sql_bd2 diferencia : String) :
    List Record :=
  if subList "DIFERENTE".data estatus.data || subList "NO EXISTE".data estatus.data then
    [⟨hoja, nombre, estatus, detalle1, detalle2, sql_bd1, sql_bd2, diferencia⟩]
  else []

/-- Modelled from the spec: `_es_tipo_numerico`, called by the feasibility-aware
`generate_alter_field` (comparators.py line 362) but defined nowhere under the
sources. Per the spec a character-set clause is attached only to non-numeric
types, so a SQL type string counts as numeric when it starts with one of the
integer / exact-numeric / approximate-numeric family names. -/
def _es_tipo_numerico (sql_type : String) : Bool :=
  ["INTEGER", "SMALLINT", "BIGINT", "FLOAT", "DOUBLE PRECISION", "DECIMAL", "NUMERIC"].any
    (fun t => startsList t.data sql_type.data)

/-- Modelled from the spec: `_puede_modificar_campo`, the modifiability
feasibility check called by `generate_alter_field` (comparators.py line 357)
but defined nowhere under the sources. Per the spec it compares the original
and target field attributes — type family, length shrink, nullability
tightening — and returns whether the in-place change is possible together
with a human-readable reason when it is not. -/
def _puede_modificar_campo (props props_original : FieldProps) : Bool × String :=
  if pyUpper props.tipo_base ≠ pyUpper props_original.tipo_base then
    (false, "cambio de familia de tipo (" ++ props_original.tipo_base ++ " a " ++
      props.tipo_base ++ ")")
  else if (match props.longitud, props_original.longitud with
           | some n, some o => decide (n < o)
           | _, _ => false) then
    (false, "reducción de longitud de " ++ optIntStr props_original.longitud ++ " a " ++
      optIntStr props.longitud)
  else if props.nullable = "NO" ∧ props_original.nullable ≠ "NO" then
    (false, "restricción de nulabilidad (NULL a NOT NULL)")
  else (true, "")

/-- The uncommented statement body built by comparators.py lines 359-376
(everything before the trailing `;`). -/
def alterFieldCore (table_name campo : String) (props : FieldProps) : String :=
  "ALTER TABLE " ++ table_name ++ " ALTER " ++ campo ++ " TYPE " ++ _get_sql_type props ++
    (if props.charset_info ≠ "" ∧ ¬ _es_tipo_numerico (_get_sql_type props) then
       props.charset_info
     else "") ++
    (if props.nullable = "NO" then " NOT NULL" else "") ++
    defaultClause props

/-- The full uncommented `ALTER … TYPE …;` statement of
comparators.py lines 359-378. -/
def alterFieldText (table_name campo : String) (props : FieldProps) : String :=
  alterFieldCore table_name campo props ++ ";\n"

/-- comparators.py lines 335-385: the five-parameter, feasibility-aware
`generate_alter_field`. This is the only definition in the repository whose
arity matches the calls at comparators.py lines 153 and 156 (the
four-parameter method actually bound to the `SQLGenerator` class cannot
accept the `props_original` argument those calls pass). When the modification
is infeasible the statement is wrapped line by line in `--` comment markers
together with the warning and reason, and the wrapped text is what gets
emitted and returned. -/
def generate_alter_field (table_name campo : String) (props : FieldProps)
    (destino : String) (props_original : Option FieldProps) (st : GenState) :
    String × GenState :=
  let pr := match props_original with
            | some po => _puede_modificar_campo props po
            | none => (true, "")
  let sql := alterFieldText table_name campo props
  let sql :=
    if pr.1 = false then
      "-- ⚠️ ADVERTENCIA: No se puede modificar " ++ table_name ++ "." ++ campo ++
        " - " ++ pr.2 ++ "\n-- " ++ sql
    else sql
  (sql, emit_sql "CAMPO" sql destino st)

/-- A Python `for` loop that appends rows to the shared report list and
threads the SQL-generator state: fold the body over the iterated items. -/
def emitLoop {α : Type} (items : List α)
    (body : α → GenState → List Record × GenState)
    (acc : List Record × GenState) : List Record × GenState :=
  match items with
  | [] => acc
  | x :: xs => emitLoop xs body (let r := body x acc.2; (acc.1 ++ r.1, r.2))

/-- comparators.py lines 83-96 (`comparar_tablas`): tables present on exactly
one side produce a `NO EXISTE` row with the CREATE TABLE script for the other
side; common tables produce nothing. -/
def comparar_tablas (c1 c2 : DBSnap) (st : GenState) : List Record × GenState :=
  let t1 := c1.tables
  let t2 := c2.tables
  let acc := emitLoop (sortedSetDiff t1 t2) (fun t st =>
    let campos := c1.fields t
    let r := generate_create_table t campos c1 "BD1" st
    (agregar_fila_solo_diferencias "Tablas" t "NO EXISTE EN BD2" t "" r.1 "" "", r.2)) ([], st)
  emitLoop (sortedSetDiff t2 t1) (fun t st =>
    let campos := c2.fields t
    let r := generate_create_table t campos c2 "BD2" st
    (agregar_fila_solo_diferencias "Tablas" t "NO EXISTE EN BD1" "" t "" r.1 "", r.2)) acc

/-- The keys compared for a common field and the page of comparators.py
line 125: `['tipo', 'nullable', 'default', 'longitud', 'precision',
'escala']`. -/
def props_comparables : List String :=
  ["tipo", "nullable", "default", "longitud", "precision", "escala"]

/-- Python `str(props.get(key))` for the six compared keys (`None` prints as
`"None"`, integers in decimal). -/
def propRaw (p : FieldProps) : String → String
  | "tipo" => p.tipo
  | "nullable" => p.nullable
  | "default" => optStrStr p.default
  | "longitud" => optIntStr p.longitud
  | "precision" => optIntStr p.precision
  | "escala" => optIntStr p.escala
  | _ => ""

/-- comparators.py lines 126-144: the `diferentes` flag and `diferencias`
strings for one common field — each key is compared after `str(...).strip().
upper()`; for `tipo` a difference counts only when the base types differ. -/
def camposDiff (p1 p2 : FieldProps) : Bool × List String :=
  props_comparables.foldl (fun acc key =>
    let val1 := pyUpper (pyStrip (propRaw p1 key))
    let val2 := pyUpper (pyStrip (propRaw p2 key))
    if val1 ≠ val2 then
      if key = "tipo" then
        if pyUpper p1.tipo_base ≠ pyUpper p2.tipo_base then
          (true, acc.2 ++ [key ++ ": " ++ propRaw p1 key ++ " vs " ++ propRaw p2 key])
        else acc
      else
        (true, acc.2 ++ [key ++ ": " ++ propRaw p1 key ++ " vs " ++ propRaw p2 key])
    else acc) (false, [])

/-- The detail string `Tipo: …, Nullable: …[, Default: …]` of
comparators.py lines 111-113. -/
def fieldDetail (p : FieldProps) : String :=
  "Tipo: " ++ p.tipo ++ ", Nullable: " ++ p.nullable ++
    (match p.default with
     | some d => if d ≠ "" then ", Default: " ++ d else ""
     | none => "")

/-- comparators.py lines 99-164 (`comparar_campos_tabla`): one-sided fields
produce `NO EXISTE` rows with an ADD-column script; common fields are
compared with `camposDiff` and, when different, produce one `DIFERENTE` row
carrying both modification scripts (generated through the five-parameter
`generate_alter_field` above, the definition matching the call's arity). -/
def comparar_campos_tabla (c1 c2 : DBSnap) (tabla : String) (st : GenState) :
    List Record × GenState :=
  let f1 := c1.fields tabla
  let f2 := c2.fields tabla
  let k1 := f1.map Prod.fst
  let k2 := f2.map Prod.fst
  let acc := emitLoop (sortedSetDiff k1 k2) (fun c st =>
    let props := dlookup f1 c defaultFieldProps
    let r := generate_create_field tabla c props "BD1" st
    (agregar_fila_solo_diferencias ("Campos_" ++ tabla) c "NO EXISTE EN BD2"
      (fieldDetail props) "" r.1 "" "", r.2)) ([], st)
  let acc := emitLoop (sortedSetDiff k2 k1) (fun c st =>
    let props := dlookup f2 c defaultFieldProps
    let r := generate_create_field tabla c props "BD2" st
    (agregar_fila_solo_diferencias ("Campos_" ++ tabla) c "NO EXISTE EN BD1"
      "" (fieldDetail props) "" r.1 "", r.2)) acc
  emitLoop (sortedSetInter k1 k2) (fun c st =>
    let p1 := dlookup f1 c defaultFieldProps
    let p2 := dlookup f2 c defaultFieldProps
    let dd := camposDiff p1 p2
    if dd.1 then
      let detalle_bd1 := "Tipo: " ++ p1.tipo ++ ", Nullable: " ++ p1.nullable
      let detalle_bd2 := "Tipo: " ++ p2.tipo ++ ", Nullable: " ++ p2.nullable
      let diferencia_texto := joinSep "; " dd.2
      let r1 := generate_alter_field tabla c p2 "BD1" (some p1) st
      let r2 := generate_alter_field tabla c p1 "BD2" (some p2) r1.2
      (agregar_fila_solo_diferencias ("Campos_" ++ tabla) c "DIFERENTE"
        detalle_bd1 detalle_bd2 r1.1 r2.1 diferencia_texto, r2.2)
    else ([], st)) acc

/-- The body run by `comparar_indices_pk` for one table name
(comparators.py lines 172-227): compare indexes and primary keys when the
table exists on both sides, otherwise report every index and the non-empty
primary key of the side that has the table as missing on the other side. -/
def indicesPkBody (c1 c2 : DBSnap) (t1 t2 : List String) (tabla : String)
    (st : GenState) : List Record × GenState :=
  if tabla ∈ t1 ∧ tabla ∈ t2 then
    let i1 := c1.indexes tabla
    let i2 := c2.indexes tabla
    let k1 := i1.map Prod.fst
    let k2 := i2.map Prod.fst
    let acc := emitLoop (sortedSetDiff k1 k2) (fun idx st =>
      let info := dlookup i1 idx defaultIndexInfo
      let r := generate_create_index tabla idx info "BD1" st
      (agregar_fila_solo_diferencias ("Indices_" ++ tabla) idx "NO EXISTE EN BD2"
        (indexInfoStr info) "" r.1 "" "", r.2)) ([], st)
    let acc := emitLoop (sortedSetDiff k2 k1) (fun idx st =>
      let info := dlookup i2 idx defaultIndexInfo
      let r := generate_create_index tabla idx info "BD2" st
      (agregar_fila_solo_diferencias ("Indices_" ++ tabla) idx "NO EXISTE EN BD1"
        "" (indexInfoStr info) "" r.1 "", r.2)) acc
    let acc := emitLoop (sortedSetInter k1 k2) (fun idx st =>
      (if dlookup i1 idx defaultIndexInfo ≠ dlookup i2 idx defaultIndexInfo then
        agregar_fila_solo_diferencias ("Indices_" ++ tabla) idx "DIFERENTE"
          (indexInfoStr (dlookup i1 idx defaultIndexInfo))
          (indexInfoStr (dlookup i2 idx defaultIndexInfo)) "" "" ""
      else [], st)) acc
    let p1 := c1.pks tabla
    let p2 := c2.pks tabla
    if p1 ≠ p2 then
      let r1 := if ¬ p1.isEmpty then generate_create_primary_key tabla p1 "BD1" acc.2
                else ("", acc.2)
      let r2 := if ¬ p2.isEmpty then generate_create_primary_key tabla p2 "BD2" r1.2
                else ("", r1.2)
      (acc.1 ++ agregar_fila_solo_diferencias ("PK_" ++ tabla)
        (if ¬ p1.isEmpty then joinSep "," p1 else "(VACÍA)") "DIFERENTE"
        (pyReprList p1) (pyReprList p2) r1.1 r2.1 "", r2.2)
    else acc
  else if tabla ∈ t1 then
    let i1 := c1.indexes tabla
    let p1 := c1.pks tabla
    let acc := emitLoop i1 (fun p st =>
      let r := generate_create_index tabla p.1 p.2 "BD1" st
      (agregar_fila_solo_diferencias ("Indices_" ++ tabla) p.1 "NO EXISTE EN BD2"
        (indexInfoStr p.2) "" r.1 "" "", r.2)) ([], st)
    if ¬ p1.isEmpty then
      let r := generate_create_primary_key tabla p1 "BD1" acc.2
      (acc.1 ++ agregar_fila_solo_diferencias ("PK_" ++ tabla) (joinSep "," p1)
        "NO EXISTE EN BD2" (pyReprList p1) "" r.1 "" "", r.2)
    else acc
  else
    let i2 := c2.indexes tabla
    let p2 := c2.pks tabla
    let acc := emitLoop i2 (fun p st =>
      let r := generate_create_index tabla p.1 p.2 "BD2" st
      (agregar_fila_solo_diferencias ("Indices_" ++ tabla) p.1 "NO EXISTE EN BD1"
        "" (indexInfoStr p.2) "" r.1 "", r.2)) ([], st)
    if ¬ p2.isEmpty then
      let r := generate_create_primary_key tabla p2 "BD2" acc.2
      (acc.1 ++ agregar_fila_solo_diferencias ("PK_" ++ tabla) (joinSep "," p2)
        "NO EXISTE EN BD1" "" (pyReprList p2) "" r.1 "", r.2)
    else acc

/-- comparators.py lines 165-227 (`comparar_indices_pk`): iterate
`sorted(tablas_bd1 | tablas_bd2)` and run `indicesPkBody` for each table. -/
def comparar_indices_pk (c1 c2 : DBSnap) (st : GenState) : List Record × GenState :=
  let t1 := c1.tables
  let t2 := c2.tables
  let todas := sortStr ((t1 ++ t2).dedup)
  emitLoop todas (fun tabla st => indicesPkBody c1 c2 t1 t2 tabla st) ([], st)

/-- comparators.py lines 229-246 (`comparar_foreign_keys`). -/
def comparar_foreign_keys (c1 c2 : DBSnap) (tabla : String) (st : GenState) :
    List Record × GenState :=
  let fk1 := c1.fks tabla
  let fk2 := c2.fks tabla
  let k1 := fk1.map Prod.fst
  let k2 := fk2.map Prod.fst
  let acc := emitLoop (sortedSetDiff k1 k2) (fun fk st =>
    let info := dlookup fk1 fk defaultFKInfo
    let r := generate_create_foreign_key tabla fk info "BD1" st
    (agregar_fila_solo_diferencias ("FK_" ++ tabla) fk "NO EXISTE EN BD2"
      ("REFERENCES " ++ info.referenced_table ++ "(" ++ joinSep ", " info.referenced_fields ++ ")")
      "" r.1 "" "", r.2)) ([], st)
  let acc := emitLoop (sortedSetDiff k2 k1) (fun fk st =>
    let info := dlookup fk2 fk defaultFKInfo
    let r := generate_create_foreign_key tabla fk info "BD2" st
    (agregar_fila_solo_diferencias ("FK_" ++ tabla) fk "NO EXISTE EN BD1"
      "" ("REFERENCES " ++ info.referenced_table ++ "(" ++ joinSep ", " info.referenced_fields ++ ")")
      "" r.1 "", r.2)) acc
  emitLoop (sortedSetInter k1 k2) (fun fk st =>
    (if dlookup fk1 fk defaultFKInfo ≠ dlookup fk2 fk defaultFKInfo then
      agregar_fila_solo_diferencias ("FK_" ++ tabla) fk "DIFERENTE"
        (fkInfoStr (dlookup fk1 fk defaultFKInfo)) (fkInfoStr (dlookup fk2 fk defaultFKInfo))
        "" "" ""
    else [], st)) acc

/-- comparators.py lines 249-264 (`comparar_triggers`). -/
def comparar_triggers (c1 c2 : DBSnap) (st : GenState) : List Record × GenState :=
  let tr1 := c1.triggers
  let tr2 := c2.triggers
  let k1 := tr1.map Prod.fst
  let k2 := tr2.map Prod.fst
  let acc := emitLoop (sortedSetDiff k1 k2) (fun t st =>
    let info := dlookup tr1 t defaultTriggerInfo
    let r := generate_create_trigger t info "BD1" st
    (agregar_fila_solo_diferencias "Triggers" t "NO EXISTE EN BD2" info.table "" r.1 "" "", r.2)) ([], st)
  let acc := emitLoop (sortedSetDiff k2 k1) (fun t st =>
    let info := dlookup tr2 t defaultTriggerInfo
    let r := generate_create_trigger t info "BD2" st
    (agregar_fila_solo_diferencias "Triggers" t "NO EXISTE EN BD1" "" info.table "" r.1 "", r.2)) acc
  emitLoop (sortedSetInter k1 k2) (fun t st =>
    (if dlookup tr1 t defaultTriggerInfo ≠ dlookup tr2 t defaultTriggerInfo then
      agregar_fila_solo_diferencias "Triggers" t "DIFERENTE"
        (triggerInfoStr (dlookup tr1 t defaultTriggerInfo))
        (triggerInfoStr (dlookup tr2 t defaultTriggerInfo)) "" "" ""
    else [], st)) acc

/-- comparators.py lines 267-282 (`comparar_procedimientos`). -/
def comparar_procedimientos (c1 c2 : DBSnap) (st : GenState) : List Record × GenState :=
  let pr1 := c1.procedures
  let pr2 := c2.procedures
  let k1 := pr1.map Prod.fst
  let k2 := pr2.map Prod.fst
  let acc := emitLoop (sortedSetDiff k1 k2) (fun p st =>
    let info := dlookup pr1 p defaultProcInfo
    let r := generate_create_procedure p info "BD1" st
    (agregar_fila_solo_diferencias "Procedimientos" p "NO EXISTE EN BD2" p "" r.1 "" "", r.2)) ([], st)
  let acc := emitLoop (sortedSetDiff k2 k1) (fun p st =>
    let info := dlookup pr2 p defaultProcInfo
    let r := generate_create_procedure p info "BD2" st
    (agregar_fila_solo_diferencias "Procedimientos" p "NO EXISTE EN BD1" "" p "" r.1 "", r.2)) acc
  emitLoop (sortedSetInter k1 k2) (fun p st =>
    (if dlookup pr1 p defaultProcInfo ≠ dlookup pr2 p defaultProcInfo then
      agregar_fila_solo_diferencias "Procedimientos" p "DIFERENTE"
        (procInfoStr (dlookup pr1 p defaultProcInfo))
        (procInfoStr (dlookup pr2 p defaultProcInfo)) "" "" ""
    else [], st)) acc

/-- comparators.py lines 285-298 (`comparar_vistas`): existence only. -/
def comparar_vistas (c1 c2 : DBSnap) (st : GenState) : List Record × GenState :=
  let v1 := c1.views
  let v2 := c2.views
  let acc := emitLoop (sortedSetDiff v1 v2) (fun v st =>
    let r := generate_create_view v (c1.viewDef v) "BD1" st
    (agregar_fila_solo_diferencias "Vistas" v "NO EXISTE EN BD2" v "" r.1 "" "", r.2)) ([], st)
  emitLoop (sortedSetDiff v2 v1) (fun v st =>
    let r := generate_create_view v (c2.viewDef v) "BD2" st
    (agregar_fila_solo_diferencias "Vistas" v "NO EXISTE EN BD1" "" v "" r.1 "", r.2)) acc

/-- comparators.py lines 301-333 (`comparar_generadores`): each value read is
wrapped in `try/except` with `None` as the recovery value; common generators
with unequal recovered values produce a `DIFERENTE` row. -/
def comparar_generadores (c1 c2 : DBSnap) (st : GenState) : List Record × GenState :=
  let g1 := c1.generators
  let g2 := c2.generators
  let acc := emitLoop (sortedSetDiff g1 g2) (fun g st =>
    let v1 := tryRead (c1.genValue g)
    let r := generate_create_generator g v1 "BD1" st
    (agregar_fila_solo_diferencias "Generadores" g "NO EXISTE EN BD2" (optIntStr v1) "" r.1 "" "", r.2)) ([], st)
  let acc := emitLoop (sortedSetDiff g2 g1) (fun g st =>
    let v2 := tryRead (c2.genValue g)
    let r := generate_create_generator g v2 "BD2" st
    (agregar_fila_solo_diferencias "Generadores" g "NO EXISTE EN BD1" "" (optIntStr v2) "" r.1 "", r.2)) acc
  emitLoop (sortedSetInter g1 g2) (fun g st =>
    (if tryRead (c1.genValue g) ≠ tryRead (c2.genValue g) then
      agregar_fila_solo_diferencias "Generadores" g "DIFERENTE"
        (optIntStr (tryRead (c1.genValue g))) (optIntStr (tryRead (c2.genValue g))) "" "" ""
    else [], st)) acc

end comparators

namespace comparators

open SQLGenerator

/-! Record components of each comparator loop body (the rows appended to the
report by one iteration, which do not depend on the accumulator state). -/

def tablasRow1 (c1 : DBSnap) (t : String) : List Record :=
  agregar_fila_solo_diferencias "Tablas" t "NO EXISTE EN BD2" t ""
    (generate_create_table t (c1.fields t) c1 "BD1" emptyGenState).1 "" ""

def tablasRow2 (c2 : DBSnap) (t : String) : List Record :=
  agregar_fila_solo_diferencias "Tablas" t "NO EXISTE EN BD1" "" t ""
    (generate_create_table t (c2.fields t) c2 "BD2" emptyGenState).1 ""

def camposRow1 (tabla : String) (f1 : List (String × FieldProps)) (c : String) : List Record :=
  agregar_fila_solo_diferencias ("Campos_" ++ tabla) c "NO EXISTE EN BD2"
    (fieldDetail (dlookup f1 c defaultFieldProps)) ""
    (createFieldText tabla c (dlookup f1 c defaultFieldProps)) "" ""

def camposRow2 (tabla : String) (f2 : List (String × FieldProps)) (c : String) : List Record :=
  agregar_fila_solo_diferencias ("Campos_" ++ tabla) c "NO EXISTE EN BD1"
    "" (fieldDetail (dlookup f2 c defaultFieldProps))
    "" (createFieldText tabla c (dlookup f2 c defaultFieldProps)) ""

def camposRow3 (tabla : String) (f1 f2 : List (String × FieldProps)) (c : String) : List Record :=
  let p1 := dlookup f1 c defaultFieldProps
  let p2 := dlookup f2 c defaultFieldProps
  let dd := camposDiff p1 p2
  if dd.1 then
    agregar_fila_solo_diferencias ("Campos_" ++ tabla) c "DIFERENTE"
      ("Tipo: " ++ p1.tipo ++ ", Nullable: " ++ p1.nullable)
      ("Tipo: " ++ p2.tipo ++ ", Nullable: " ++ p2.nullable)
      (generate_alter_field tabla c p2 "BD1" (some p1) emptyGenState).1
      (generate_alter_field tabla c p1 "BD2" (some p2) emptyGenState).1
      (joinSep "; " dd.2)
  else []

def idxRow1 (tabla : String) (i1 : List (String × IndexInfo)) (idx : String) : List Record :=
  agregar_fila_solo_diferencias ("Indices_" ++ tabla) idx "NO EXISTE EN BD2"
    (indexInfoStr (dlookup i1 idx defaultIndexInfo)) ""
    (createIndexText tabla idx (dlookup i1 idx defaultIndexInfo)) "" ""

def idxRow2 (tabla : String) (i2 : List (String × IndexInfo)) (idx : String) : List Record :=
  agregar_fila_solo_diferencias ("Indices_" ++ tabla) idx "NO EXISTE EN BD1"
    "" (indexInfoStr (dlookup i2 idx defaultIndexInfo))
    "" (createIndexText tabla idx (dlookup i2 idx defaultIndexInfo)) ""

def idxRow3 (tabla : String) (i1 i2 : List (String × IndexInfo)) (idx : String) : List Record :=
  if dlookup i1 idx defaultIndexInfo ≠ dlookup i2 idx defaultIndexInfo then
    agregar_fila_solo_diferencias ("Indices_" ++ tabla) idx "DIFERENTE"
      (indexInfoStr (dlookup i1 idx defaultIndexInfo))
      (indexInfoStr (dlookup i2 idx defaultIndexInfo)) "" "" ""
  else []

def idxPairRow1 (tabla : String) (p : String × IndexInfo) : List Record :=
  agregar_fila_solo_diferencias ("Indices_" ++ tabla) p.1 "NO EXISTE EN BD2"
    (indexInfoStr p.2) "" (createIndexText tabla p.1 p.2) "" ""

def idxPairRow2 (tabla : String) (p : String × IndexInfo) : List Record :=
  agregar_fila_solo_diferencias ("Indices_" ++ tabla) p.1 "NO EXISTE EN BD1"
    "" (indexInfoStr p.2) "" (createIndexText tabla p.1 p.2) ""

/-- Rows produced by `indicesPkBody` for one table. -/
def indicesPkRows (c1 c2 : DBSnap) (t1 t2 : List String) (tabla : String) : List Record :=
  if tabla ∈ t1 ∧ tabla ∈ t2 then
    let i1 := c1.indexes tabla
    let i2 := c2.indexes tabla
    let k1 := i1.map Prod.fst
    let k2 := i2.map Prod.fst
    let p1 := c1.pks tabla
    let p2 := c2.pks tabla
    listFlat (idxRow1 tabla i1) (sortedSetDiff k1 k2) ++
      listFlat (idxRow2 tabla i2) (sortedSetDiff k2 k1) ++
      listFlat (idxRow3 tabla i1 i2) (sortedSetInter k1 k2) ++
      (if p1 ≠ p2 then
        agregar_fila_solo_diferencias ("PK_" ++ tabla)
          (if ¬ p1.isEmpty then joinSep "," p1 else "(VACÍA)") "DIFERENTE"
          (pyReprList p1) (pyReprList p2)
          (if ¬ p1.isEmpty then createPKText tabla p1 else "")
          (if ¬ p2.isEmpty then createPKText tabla p2 else "") ""
      else [])
  else if tabla ∈ t1 then
    listFlat (idxPairRow1 tabla) (c1.indexes tabla) ++
      (if ¬ (c1.pks tabla).isEmpty then
        agregar_fila_solo_diferencias ("PK_" ++ tabla) (joinSep "," (c1.pks tabla))
          "NO EXISTE EN BD2" (pyReprList (c1.pks tabla)) ""
          (createPKText tabla (c1.pks tabla)) "" ""
      else [])
  else
    listFlat (idxPairRow2 tabla) (c2.indexes tabla) ++
      (if ¬ (c2.pks tabla).isEmpty then
        agregar_fila_solo_diferencias ("PK_" ++ tabla) (joinSep "," (c2.pks tabla))
          "NO EXISTE EN BD1" "" (pyReprList (c2.pks tabla))
          "" (createPKText tabla (c2.pks tabla)) ""
      else [])

def fkRow1 (tabla : String) (fk1 : List (String × FKInfo)) (fk : String) : List Record :=
  agregar_fila_solo_diferencias ("FK_" ++ tabla) fk "NO EXISTE EN BD2"
    ("REFERENCES " ++ (dlookup fk1 fk defaultFKInfo).referenced_table ++ "(" ++
      joinSep ", " (dlookup fk1 fk defaultFKInfo).referenced_fields ++ ")") ""
    (createFKText tabla fk (dlookup fk1 fk defaultFKInfo)) "" ""

def fkRow2 (tabla : String) (fk2 : List (String × FKInfo)) (fk : String) : List Record :=
  agregar_fila_solo_diferencias ("FK_" ++ tabla) fk "NO EXISTE EN BD1"
    "" ("REFERENCES " ++ (dlookup fk2 fk defaultFKInfo).referenced_table ++ "(" ++
      joinSep ", " (dlookup fk2 fk defaultFKInfo).referenced_fields ++ ")")
    "" (createFKText tabla fk (dlookup fk2 fk defaultFKInfo)) ""

def fkRow3 (tabla : String) (fk1 fk2 : List (String × FKInfo)) (fk : String) : List Record :=
  if dlookup fk1 fk defaultFKInfo ≠ dlookup fk2 fk defaultFKInfo then
    agregar_fila_solo_diferencias ("FK_" ++ tabla) fk "DIFERENTE"
      (fkInfoStr (dlookup fk1 fk defaultFKInfo)) (fkInfoStr (dlookup fk2 fk defaultFKInfo))
      "" "" ""
  else []

def trigRow1 (tr1 : List (String × TriggerInfo)) (t : String) : List Record :=
  agregar_fila_solo_diferencias "Triggers" t "NO EXISTE EN BD2"
    (dlookup tr1 t defaultTriggerInfo).table ""
    (createTriggerText t (dlookup tr1 t defaultTriggerInfo)) "" ""

def trigRow2 (tr2 : List (String × TriggerInfo)) (t : String) : List Record :=
  agregar_fila_solo_diferencias "Triggers" t "NO EXISTE EN BD1"
    "" (dlookup tr2 t defaultTriggerInfo).table
    "" (createTriggerText t (dlookup tr2 t defaultTriggerInfo)) ""

def trigRow3 (tr1 tr2 : List (String × TriggerInfo)) (t : String) : List Record :=
  if dlookup tr1 t defaultTriggerInfo ≠ dlookup tr2 t defaultTriggerInfo then
    agregar_fila_solo_diferencias "Triggers" t "DIFERENTE"
      (triggerInfoStr (dlookup tr1 t defaultTriggerInfo))
      (triggerInfoStr (dlookup tr2 t defaultTriggerInfo)) "" "" ""
  else []

def procRow1 (pr1 : List (String × ProcInfo)) (p : String) : List Record :=
  agregar_fila_solo_diferencias "Procedimientos" p "NO EXISTE EN BD2" p ""
    (createProcedureText p (dlookup pr1 p defaultProcInfo)) "" ""

def procRow2 (pr2 : List (String × ProcInfo)) (p : String) : List Record :=
  agregar_fila_solo_diferencias "Procedimientos" p "NO EXISTE EN BD1" "" p
    "" (createProcedureText p (dlookup pr2 p defaultProcInfo)) ""

def procRow3 (pr1 pr2 : List (String × ProcInfo)) (p : String) : List Record :=
  if dlookup pr1 p defaultProcInfo ≠ dlookup pr2 p defaultProcInfo then
    agregar_fila_solo_diferencias "Procedimientos" p "DIFERENTE"
      (procInfoStr (dlookup pr1 p defaultProcInfo))
      (procInfoStr (dlookup pr2 p defaultProcInfo)) "" "" ""
  else []

def vistaRow1 (c1 : DBSnap) (v : String) : List Record :=
  agregar_fila_solo_diferencias "Vistas" v "NO EXISTE EN BD2" v ""
    (createViewText v (c1.viewDef v)) "" ""

def vistaRow2 (c2 : DBSnap) (v : String) : List Record :=
  agregar_fila_solo_diferencias "Vistas" v "NO EXISTE EN BD1" "" v
    "" (createViewText v (c2.viewDef v)) ""

def genRow1 (c1 : DBSnap) (g : String) : List Record :=
  agregar_fila_solo_diferencias "Generadores" g "NO EXISTE EN BD2"
    (optIntStr (tryRead (c1.genValue g))) ""
    (createGeneratorText g (tryRead (c1.genValue g))) "" ""

def genRow2 (c2 : DBSnap) (g : String) : List Record :=
  agregar_fila_solo_diferencias "Generadores" g "NO EXISTE EN BD1"
    "" (optIntStr (tryRead (c2.genValue g)))
    "" (createGeneratorText g (tryRead (c2.genValue g))) ""

def genRow3 (c1 c2 : DBSnap) (g : String) : List Record :=
  if tryRead (c1.genValue g) ≠ tryRead (c2.genValue g) then
    agregar_fila_solo_diferencias "Generadores" g "DIFERENTE"
      (optIntStr (tryRead (c1.genValue g))) (optIntStr (tryRead (c2.genValue g))) "" "" ""
  else []

end comparators

/-! ## Concrete snapshots and property inputs used in the verification -/

/-- Field `ID INTEGER NOT NULL`, identical on both sides of the scenario. -/
def propsID : FieldProps :=
  ⟨"INTEGER", "LONG", some 4, none, some 0, "NO", none, none, "NO", none, some 0,
   " CHARACTER SET NONE COLLATE NONE"⟩

/-- Field `NAME VARCHAR(50)` as read from the left database. -/
def propsNAME50 : FieldProps :=
  ⟨"VARCHAR(50)", "VARYING", some 50, none, some 0, "SI", none, none, "NO", none, some 1,
   " CHARACTER SET NONE COLLATE NONE"⟩

/-- Field `NAME VARCHAR(30)` as read from the right database. -/
def propsNAME30 : FieldProps :=
  ⟨"VARCHAR(30)", "VARYING", some 30, none, some 0, "SI", none, none, "NO", none, some 1,
   " CHARACTER SET NONE COLLATE NONE"⟩

/-- Field `NAME VARCHAR(5)`, the infeasible shrink target. -/
def propsNAME5 : FieldProps :=
  ⟨"VARCHAR(5)", "VARYING", some 5, none, some 0, "SI", none, none, "NO", none, some 1,
   " CHARACTER SET NONE COLLATE NONE"⟩

/-- Left snapshot of the scenario: `CUSTOMER(ID INTEGER NOT NULL, NAME VARCHAR(50))`. -/
def dbCustomerL : DBSnap :=
  ⟨["CUSTOMER"], [], [],
   fun t => if t = "CUSTOMER" then [("ID", propsID), ("NAME", propsNAME50)] else [],
   fun _ => [], fun _ => [], fun _ => [], [], [], fun _ => "", fun _ => .ok none⟩

/-- Right snapshot of the scenario: `CUSTOMER(ID INTEGER NOT NULL, NAME VARCHAR(30))`. -/
def dbCustomerR : DBSnap :=
  ⟨["CUSTOMER"], [], [],
   fun t => if t = "CUSTOMER" then [("ID", propsID), ("NAME", propsNAME30)] else [],
   fun _ => [], fun _ => [], fun _ => [], [], [], fun _ => "", fun _ => .ok none⟩

/-- Snapshot owning sequence `GEN_ID` whose value read throws. -/
def dbGenUnreadable : DBSnap :=
  ⟨[], [], ["GEN_ID"], fun _ => [], fun _ => [], fun _ => [], fun _ => [], [], [],
   fun _ => "", fun _ => .error ()⟩

/-- Snapshot owning sequence `GEN_ID` whose value reads `42`. -/
def dbGen42 : DBSnap :=
  ⟨[], [], ["GEN_ID"], fun _ => [], fun _ => [], fun _ => [], fun _ => [], [], [],
   fun _ => "", fun _ => .ok (some 42)⟩

/-- Snapshot with table `T`, one index `IDX1` on `A` and primary key `(A)`. -/
def dbIdxOnly : DBSnap :=
  ⟨["T"], [], [],
   fun t => if t = "T" then [("A", propsID)] else [],
   fun t => if t = "T" then [("IDX1", ⟨false, "A"⟩)] else [],
   fun t => if t = "T" then ["A"] else [],
   fun _ => [], [], [], fun _ => "", fun _ => .ok none⟩

/-- An empty snapshot. -/
def dbEmpty : DBSnap :=
  ⟨[], [], [], fun _ => [], fun _ => [], fun _ => [], fun _ => [], [], [],
   fun _ => "", fun _ => .ok none⟩

/-- A concrete per-kind accumulator holding one statement for each of the five
kinds of the creation-order scenario. -/
def accFive : String → List String := fun k =>
  if k = "TABLA" then ["CREATE TABLE T (...);"]
  else if k = "CAMPO" then ["ALTER TABLE T ADD F INTEGER;"]
  else if k = "PRIMARY_KEY" then ["ALTER TABLE T ADD CONSTRAINT PK_T PRIMARY KEY (F);"]
  else if k = "INDICE" then ["CREATE INDEX I ON T (F);"]
  else if k = "FOREIGN_KEY" then ["ALTER TABLE T ADD CONSTRAINT FK1 FOREIGN KEY (F) REFERENCES U (G);"]
  else []

/-- A descriptor whose display type is lower-case `varchar(50)`. -/
def cexDisplay : FieldProps :=
  ⟨"varchar(50)", "VARYING", some 50, none, some 0, "SI", none, none, "NO", none, none, ""⟩

/-- A descriptor with no display type and the unknown base type `foo`. -/
def cexFallthrough : FieldProps :=
  ⟨"", "foo", none, none, none, "SI", none, none, "NO", none, none, ""⟩

/-- A descriptor with no display type and the unknown upper-case base type
`WIDGET`. -/
def propsWidget : FieldProps :=
  ⟨"", "WIDGET", none, none, none, "SI", none, none, "NO", none, none, ""⟩

/-! ## Helper lemmas -/

open SQLGenerator

theorem str_ext {a b : String} (h : a.data = b.data) : a = b := by
  cases a; cases b; exact congrArg String.mk h

theorem str_data_append (a b : String) : (a ++ b).data = a.data ++ b.data := rfl

theorem insertSorted_perm (x : String) (l : List String) :
    (insertSorted x l).Perm (x :: l) := by
  induction l with
  | nil => simp [insertSorted]
  | cons y ys ih =>
    by_cases h : pyLe x.data y.data
    · simp [insertSorted, h]
    · simp only [insertSorted, h, if_neg, Bool.false_eq_true, not_false_eq_true, ite_false]
      exact (ih.cons y).trans (List.Perm.swap x y ys)

theorem sortStr_perm (l : List String) : (sortStr l).Perm l := by
  induction l with
  | nil => simp [sortStr]
  | cons x xs ih => exact (insertSorted_perm x (sortStr xs)).trans (ih.cons x)

theorem mem_sortedSetDiff {x : String} {a b : List String} :
    x ∈ sortedSetDiff a b ↔ x ∈ a ∧ x ∉ b := by
  unfold sortedSetDiff
  rw [(sortStr_perm _).mem_iff, List.mem_dedup, List.mem_filter]
  simp

theorem mem_sortedSetInter {x : String} {a b : List String} :
    x ∈ sortedSetInter a b ↔ x ∈ a ∧ x ∈ b := by
  unfold sortedSetInter
  rw [(sortStr_perm _).mem_iff, List.mem_dedup, List.mem_filter]
  simp

theorem nodup_sortedSetInter (a b : List String) : (sortedSetInter a b).Nodup :=
  ((sortStr_perm _).nodup_iff).mpr (List.nodup_dedup _)

theorem mem_listFlat {α β : Type} {f : α → List β} {l : List α} {r : β} :
    r ∈ listFlat f l ↔ ∃ x, x ∈ l ∧ r ∈ f x := by
  induction l with
  | nil => simp [listFlat]
  | cons x xs ih =>
    simp only [listFlat, List.mem_append, ih, List.mem_cons]
    constructor
    · rintro (h | ⟨y, hy, hr⟩)
      · exact ⟨x, Or.inl rfl, h⟩
      · exact ⟨y, Or.inr hy, hr⟩
    · rintro ⟨y, (rfl | hy), hr⟩
      · exact Or.inl hr
      · exact Or.inr ⟨y, hy, hr⟩

theorem countP_listFlat {α β : Type} (p : β → Bool) (f : α → List β) (l : List α) :
    (listFlat f l).countP p = (l.map (fun x => (f x).countP p)).sum := by
  induction l with
  | nil => simp [listFlat]
  | cons x xs ih => simp [listFlat, List.countP_append, ih]

theorem emitLoop_fst {α : Type} (items : List α)
    (body : α → GenState → List Record × GenState) (rows : α → List Record)
    (hrows : ∀ x st, (body x st).1 = rows x) (acc : List Record × GenState) :
    (comparators.emitLoop items body acc).1 = acc.1 ++ listFlat rows items := by
  induction items generalizing acc with
  | nil => simp [comparators.emitLoop, listFlat]
  | cons x xs ih =>
    show (comparators.emitLoop xs body _).1 = _
    rw [ih]
    simp [listFlat, hrows, List.append_assoc]

open comparators in
theorem comparar_triggers_records (c1 c2 : DBSnap) (st : GenState) :
    (comparar_triggers c1 c2 st).1 =
      listFlat (trigRow1 c1.triggers)
          (sortedSetDiff (c1.triggers.map Prod.fst) (c2.triggers.map Prod.fst)) ++
        (listFlat (trigRow2 c2.triggers)
          (sortedSetDiff (c2.triggers.map Prod.fst) (c1.triggers.map Prod.fst)) ++
         listFlat (trigRow3 c1.triggers c2.triggers)
          (sortedSetInter (c1.triggers.map Prod.fst) (c2.triggers.map Prod.fst))) := by
  unfold comparar_triggers
  rw [emitLoop_fst _ _ (trigRow3 c1.triggers c2.triggers) (fun x st => rfl),
      emitLoop_fst _ _ (trigRow2 c2.triggers) (fun x st => rfl),
      emitLoop_fst _ _ (trigRow1 c1.triggers) (fun x st => rfl)]
  simp [List.append_assoc]

open comparators in
theorem comparar_procedimientos_records (c1 c2 : DBSnap) (st : GenState) :
    (comparar_procedimientos c1 c2 st).1 =
      listFlat (procRow1 c1.procedures)
          (sortedSetDiff (c1.procedures.map Prod.fst) (c2.procedures.map Prod.fst)) ++
        (listFlat (procRow2 c2.procedures)
          (sortedSetDiff (c2.procedures.map Prod.fst) (c1.procedures.map Prod.fst)) ++
         listFlat (procRow3 c1.procedures c2.procedures)
          (sortedSetInter (c1.procedures.map Prod.fst) (c2.procedures.map Prod.fst))) := by
  unfold comparar_procedimientos
  rw [emitLoop_fst _ _ (procRow3 c1.procedures c2.procedures) (fun _ _ => rfl),
      emitLoop_fst _ _ (procRow2 c2.procedures) (fun _ _ => rfl),
      emitLoop_fst _ _ (procRow1 c1.procedures) (fun _ _ => rfl)]
  simp [List.append_assoc]

open comparators in
theorem comparar_vistas_records (c1 c2 : DBSnap) (st : GenState) :
    (comparar_vistas c1 c2 st).1 =
      listFlat (vistaRow1 c1) (sortedSetDiff c1.views c2.views) ++
        listFlat (vistaRow2 c2) (sortedSetDiff c2.views c1.views) := by
  unfold comparar_vistas
  rw [emitLoop_fst _ _ (vistaRow2 c2) (fun _ _ => rfl),
      emitLoop_fst _ _ (vistaRow1 c1) (fun _ _ => rfl)]
  simp

theorem generate_create_table_fst (t : String) (campos : List (String × FieldProps))
    (c : DBSnap) (destino : String) (st st' : GenState) :
    (generate_create_table t campos c destino st).1 =
      (generate_create_table t campos c destino st').1 := by
  unfold SQLGenerator.generate_create_table
  by_cases h : (c.pks t).isEmpty <;>
    simp [h, SQLGenerator.generate_create_primary_key]

open comparators in
theorem comparar_tablas_records (c1 c2 : DBSnap) (st : GenState) :
    (comparar_tablas c1 c2 st).1 =
      listFlat (tablasRow1 c1) (sortedSetDiff c1.tables c2.tables) ++
        listFlat (tablasRow2 c2) (sortedSetDiff c2.tables c1.tables) := by
  unfold comparar_tablas
  rw [emitLoop_fst _ _ (tablasRow2 c2)
        (by
          intro x st
          simp only [tablasRow2]
          rw [generate_create_table_fst x (c2.fields x) c2 "BD2" st emptyGenState]),
      emitLoop_fst _ _ (tablasRow1 c1)
        (by
          intro x st
          simp only [tablasRow1]
          rw [generate_create_table_fst x (c1.fields x) c1 "BD1" st emptyGenState])]
  simp

open comparators in
theorem comparar_generadores_records (c1 c2 : DBSnap) (st : GenState) :
    (comparar_generadores c1 c2 st).1 =
      listFlat (genRow1 c1) (sortedSetDiff c1.generators c2.generators) ++
        (listFlat (genRow2 c2) (sortedSetDiff c2.generators c1.generators) ++
         listFlat (genRow3 c1 c2) (sortedSetInter c1.generators c2.generators)) := by
  unfold comparar_generadores
  rw [emitLoop_fst _ _ (genRow3 c1 c2) (fun _ _ => rfl),
      emitLoop_fst _ _ (genRow2 c2) (fun _ _ => rfl),
      emitLoop_fst _ _ (genRow1 c1) (fun _ _ => rfl)]
  simp [List.append_assoc]

open comparators in
theorem comparar_foreign_keys_records (c1 c2 : DBSnap) (tabla : String) (st : GenState) :
    (comparar_foreign_keys c1 c2 tabla st).1 =
      listFlat (fkRow1 tabla (c1.fks tabla))
          (sortedSetDiff ((c1.fks tabla).map Prod.fst) ((c2.fks tabla).map Prod.fst)) ++
        (listFlat (fkRow2 tabla (c2.fks tabla))
          (sortedSetDiff ((c2.fks tabla).map Prod.fst) ((c1.fks tabla).map Prod.fst)) ++
         listFlat (fkRow3 tabla (c1.fks tabla) (c2.fks tabla))
          (sortedSetInter ((c1.fks tabla).map Prod.fst) ((c2.fks tabla).map Prod.fst))) := by
  unfold comparar_foreign_keys
  rw [emitLoop_fst _ _ (fkRow3 tabla (c1.fks tabla) (c2.fks tabla)) (fun _ _ => rfl),
      emitLoop_fst _ _ (fkRow2 tabla (c2.fks tabla)) (fun _ _ => rfl),
      emitLoop_fst _ _ (fkRow1 tabla (c1.fks tabla)) (fun _ _ => rfl)]
  simp [List.append_assoc]

open comparators in
theorem comparar_campos_records (c1 c2 : DBSnap) (tabla : String) (st : GenState) :
    (comparar_campos_tabla c1 c2 tabla st).1 =
      listFlat (camposRow1 tabla (c1.fields tabla))
          (sortedSetDiff ((c1.fields tabla).map Prod.fst) ((c2.fields tabla).map Prod.fst)) ++
        (listFlat (camposRow2 tabla (c2.fields tabla))
          (sortedSetDiff ((c2.fields tabla).map Prod.fst) ((c1.fields tabla).map Prod.fst)) ++
         listFlat (camposRow3 tabla (c1.fields tabla) (c2.fields tabla))
          (sortedSetInter ((c1.fields tabla).map Prod.fst) ((c2.fields tabla).map Prod.fst))) := by
  unfold comparar_campos_tabla
  rw [emitLoop_fst _ _ (camposRow3 tabla (c1.fields tabla) (c2.fields tabla))
        (by
          intro x st
          by_cases h : (camposDiff (dlookup (c1.fields tabla) x defaultFieldProps)
              (dlookup (c2.fields tabla) x defaultFieldProps)).1
          · simp only [camposRow3, h, if_true]
            rfl
          · simp only [camposRow3, h]
            rfl),
      emitLoop_fst _ _ (camposRow2 tabla (c2.fields tabla)) (fun _ _ => rfl),
      emitLoop_fst _ _ (camposRow1 tabla (c1.fields tabla)) (fun _ _ => rfl)]
  simp [List.append_assoc]

open comparators in
theorem indicesPkBody_fst (c1 c2 : DBSnap) (t1 t2 : List String) (tabla : String)
    (st : GenState) :
    (indicesPkBody c1 c2 t1 t2 tabla st).1 = indicesPkRows c1 c2 t1 t2 tabla := by
  unfold comparators.indicesPkBody comparators.indicesPkRows
  by_cases hb : tabla ∈ t1 ∧ tabla ∈ t2
  · simp only [if_pos hb]
    by_cases hpk : c1.pks tabla ≠ c2.pks tabla
    · simp only [if_pos hpk]
      rw [emitLoop_fst _ _ (idxRow3 tabla (c1.indexes tabla) (c2.indexes tabla)) (fun _ _ => rfl),
          emitLoop_fst _ _ (idxRow2 tabla (c2.indexes tabla)) (fun _ _ => rfl),
          emitLoop_fst _ _ (idxRow1 tabla (c1.indexes tabla)) (fun _ _ => rfl)]
      by_cases hp1 : (c1.pks tabla).isEmpty <;> by_cases hp2 : (c2.pks tabla).isEmpty <;>
        simp [hp1, hp2, SQLGenerator.generate_create_primary_key, List.append_assoc]
    · simp only [if_neg hpk]
      rw [emitLoop_fst _ _ (idxRow3 tabla (c1.indexes tabla) (c2.indexes tabla)) (fun _ _ => rfl),
          emitLoop_fst _ _ (idxRow2 tabla (c2.indexes tabla)) (fun _ _ => rfl),
          emitLoop_fst _ _ (idxRow1 tabla (c1.indexes tabla)) (fun _ _ => rfl)]
      simp [List.append_assoc]
  · simp only [if_neg hb]
    by_cases h1 : tabla ∈ t1
    · simp only [if_pos h1]
      by_cases hp1 : (c1.pks tabla).isEmpty
      · simp [hp1]
        rw [emitLoop_fst _ _ (idxPairRow1 tabla) (fun _ _ => rfl)]
        simp
      · simp [hp1, SQLGenerator.generate_create_primary_key]
        rw [emitLoop_fst _ _ (idxPairRow1 tabla) (fun _ _ => rfl)]
        simp [List.append_assoc]
    · simp only [if_neg h1]
      by_cases hp2 : (c2.pks tabla).isEmpty
      · simp [hp2]
        rw [emitLoop_fst _ _ (idxPairRow2 tabla) (fun _ _ => rfl)]
        simp
      · simp [hp2, SQLGenerator.generate_create_primary_key]
        rw [emitLoop_fst _ _ (idxPairRow2 tabla) (fun _ _ => rfl)]
        simp [List.append_assoc]

open comparators in
theorem comparar_indices_pk_records (c1 c2 : DBSnap) (st : GenState) :
    (comparar_indices_pk c1 c2 st).1 =
      listFlat (indicesPkRows c1 c2 c1.tables c2.tables)
        (sortStr ((c1.tables ++ c2.tables).dedup)) := by
  unfold comparators.comparar_indices_pk
  rw [emitLoop_fst _ _ (indicesPkRows c1 c2 c1.tables c2.tables)
        (fun x st => indicesPkBody_fst c1 c2 c1.tables c2.tables x st)]
  simp

theorem agregar_no2 (hoja nombre d1 d2 s1 s2 dif : String) :
    comparators.agregar_fila_solo_diferencias hoja nombre "NO EXISTE EN BD2" d1 d2 s1 s2 dif =
      [⟨hoja, nombre, "NO EXISTE EN BD2", d1, d2, s1, s2, dif⟩] := rfl

theorem agregar_no1 (hoja nombre d1 d2 s1 s2 dif : String) :
    comparators.agregar_fila_solo_diferencias hoja nombre "NO EXISTE EN BD1" d1 d2 s1 s2 dif =
      [⟨hoja, nombre, "NO EXISTE EN BD1", d1, d2, s1, s2, dif⟩] := rfl

theorem agregar_dif (hoja nombre d1 d2 s1 s2 dif : String) :
    comparators.agregar_fila_solo_diferencias hoja nombre "DIFERENTE" d1 d2 s1 s2 dif =
      [⟨hoja, nombre, "DIFERENTE", d1, d2, s1, s2, dif⟩] := rfl

theorem strApp_left_cancel {p a b : String} (h : p ++ a = p ++ b) : a = b := by
  have h2 : p.data ++ a.data = p.data ++ b.data := by
    have h3 := congrArg String.data h
    simpa [str_data_append] using h3
  exact str_ext (List.append_cancel_left h2)

theorem pk_ne_indices (a b : String) : ("PK_" ++ a) ≠ ("Indices_" ++ b) := by
  intro h
  have h2 : ("PK_" ++ a).data = ("Indices_" ++ b).data := congrArg String.data h
  have h3 : ('P' :: 'K' :: '_' :: a.data) =
      ('I' :: 'n' :: 'd' :: 'i' :: 'c' :: 'e' :: 's' :: '_' :: b.data) := h2
  injection h3 with h4 _
  exact absurd h4 (by decide)

theorem startsList_self_append (n b : List Char) : startsList n (n ++ b) = true := by
  induction n with
  | nil => simp [startsList]
  | cons c cs ih => simp [startsList, ih]

theorem subList_middle (a n b : List Char) : subList n (a ++ (n ++ b)) = true := by
  induction a with
  | nil =>
    cases n with
    | nil => cases b <;> simp [subList, startsList]
    | cons c cs =>
      show subList (c :: cs) (c :: (cs ++ b)) = true
      simp [subList, startsList_self_append, startsList]
  | cons x xs ih =>
    show subList n (x :: (xs ++ (n ++ b))) = true
    simp [subList, ih]

theorem subList_append_self (a n : List Char) : subList n (a ++ n) = true := by
  have h := subList_middle a n []
  simpa using h

theorem nlFree_append {a b : String} (ha : nlFree a) (hb : nlFree b) : nlFree (a ++ b) := by
  unfold nlFree at *
  rw [str_data_append]
  simp [List.mem_append]
  exact ⟨ha, hb⟩

theorem count_sortedSetInter_of_mem {g : String} {a b : List String}
    (h : g ∈ sortedSetInter a b) : (sortedSetInter a b).count g = 1 :=
  List.count_eq_one_of_mem (nodup_sortedSetInter a b) h

/-! ## Claim theorems -/

/-- C10. Frame property of `emit_sql`: the statement is appended only to the
accumulator selected by `destino`, only under key `tipo`; a destination other
than `BD1`/`BD2` changes nothing, and every key other than `tipo` keeps its
previous statement list in both accumulators. -/
theorem emit_sql_frame (tipo sql destino : String) (st : GenState) :
    (destino = "BD1" →
      (SQLGenerator.emit_sql tipo sql destino st).sql_objects_bd2 = st.sql_objects_bd2 ∧
      (SQLGenerator.emit_sql tipo sql destino st).sql_objects_bd1 tipo =
        st.sql_objects_bd1 tipo ++ [sql]) ∧
    (destino = "BD2" →
      (SQLGenerator.emit_sql tipo sql destino st).sql_objects_bd1 = st.sql_objects_bd1 ∧
      (SQLGenerator.emit_sql tipo sql destino st).sql_objects_bd2 tipo =
        st.sql_objects_bd2 tipo ++ [sql]) ∧
    (destino ≠ "BD1" → destino ≠ "BD2" →
      SQLGenerator.emit_sql tipo sql destino st = st) ∧
    (∀ k, k ≠ tipo →
      (SQLGenerator.emit_sql tipo sql destino st).sql_objects_bd1 k = st.sql_objects_bd1 k ∧
      (SQLGenerator.emit_sql tipo sql destino st).sql_objects_bd2 k = st.sql_objects_bd2 k) := by
  refine ⟨?_, ?_, ?_, ?_⟩
  · intro h
    subst h
    simp [SQLGenerator.emit_sql]
  · intro h
    subst h
    simp [SQLGenerator.emit_sql]
  · intro h1 h2
    simp [SQLGenerator.emit_sql, h1, h2]
  · intro k hk
    unfold SQLGenerator.emit_sql
    by_cases h1 : destino = "BD1"
    · simp [h1, hk]
    · by_cases h2 : destino = "BD2" <;> simp [h1, h2, hk]

/-- Closed witness for C10 at a concrete call. -/
theorem emit_sql_frame_witness :
    (SQLGenerator.emit_sql "CAMPO" "sql;" "BD1" emptyGenState).sql_objects_bd2 =
      emptyGenState.sql_objects_bd2 ∧
    (SQLGenerator.emit_sql "CAMPO" "sql;" "BD1" emptyGenState).sql_objects_bd1 "CAMPO" =
      emptyGenState.sql_objects_bd1 "CAMPO" ++ ["sql;"] :=
  (emit_sql_frame "CAMPO" "sql;" "BD1" emptyGenState).1 rfl

/-- C9. For every table name and non-empty primary-key field list,
`generate_create_primary_key` returns the
`ALTER TABLE … ADD CONSTRAINT PK_<table> PRIMARY KEY (…)` statement and
records it in the accumulator of its destination; for an empty field list it
returns the empty string and records nothing. -/
theorem primary_key_generator_spec (table_name : String) (pk_fields : List String)
    (destino : String) (st : GenState) :
    (pk_fields ≠ [] →
      (SQLGenerator.generate_create_primary_key table_name pk_fields destino st).1 =
        "ALTER TABLE " ++ table_name ++ " ADD CONSTRAINT PK_" ++ table_name ++
          " PRIMARY KEY (" ++ joinSep ", " pk_fields ++ ");\n" ∧
      (SQLGenerator.generate_create_primary_key table_name pk_fields destino st).2 =
        SQLGenerator.emit_sql "PRIMARY_KEY"
          (SQLGenerator.generate_create_primary_key table_name pk_fields destino st).1
          destino st ∧
      (destino = "BD1" →
        ((SQLGenerator.generate_create_primary_key table_name pk_fields destino st).2).sql_objects_bd1
            "PRIMARY_KEY" =
          st.sql_objects_bd1 "PRIMARY_KEY" ++
            [(SQLGenerator.generate_create_primary_key table_name pk_fields destino st).1])) ∧
    (pk_fields = [] →
      SQLGenerator.generate_create_primary_key table_name pk_fields destino st = ("", st)) := by
  constructor
  · intro h
    have he : pk_fields.isEmpty = false := by
      cases pk_fields with
      | nil => exact absurd rfl h
      | cons x xs => rfl
    refine ⟨?_, ?_, ?_⟩
    · simp [SQLGenerator.generate_create_primary_key, SQLGenerator.createPKText, he]
    · simp [SQLGenerator.generate_create_primary_key, he]
    · intro hd
      subst hd
      simp [SQLGenerator.generate_create_primary_key, he, SQLGenerator.emit_sql]
  · intro h
    subst h
    simp [SQLGenerator.generate_create_primary_key]

/-- Closed witness for C9 at a concrete call. -/
theorem primary_key_generator_spec_witness :
    (SQLGenerator.generate_create_primary_key "T" ["ID"] "BD1" emptyGenState).1 =
      "ALTER TABLE " ++ "T" ++ " ADD CONSTRAINT PK_" ++ "T" ++ " PRIMARY KEY (" ++
        joinSep ", " ["ID"] ++ ");\n" :=
  ((primary_key_generator_spec "T" ["ID"] "BD1" emptyGenState).1 (by decide)).1

/-- C6 (counterexample). The claim "the type mapper returns the display-type
string unchanged" fails as stated: for the lower-case display type
`varchar(50)` (which carries explicit parameters) the function returns the
upper-cased `VARCHAR(50)`, not the original string. -/
theorem get_sql_type_display_not_verbatim :
    cexDisplay.tipo = "varchar(50)" ∧
    cexDisplay.tipo.data.contains '(' = true ∧
    cexDisplay.tipo.data.contains ')' = true ∧
    SQLGenerator._get_sql_type cexDisplay = "VARCHAR(50)" ∧
    SQLGenerator._get_sql_type cexDisplay ≠ cexDisplay.tipo := by
  refine ⟨rfl, by decide, by decide, by decide, by decide⟩

/-- C6 (amended). For every field descriptor whose display type is non-empty
and carries both parentheses, `_get_sql_type` returns that display string
upper-cased; in particular a display string that is already upper-case (as
catalog-supplied type names are) is returned unchanged. -/
theorem get_sql_type_display_uppercased (p : FieldProps)
    (h1 : p.tipo ≠ "") (h2 : p.tipo.data.contains '(' = true)
    (h3 : p.tipo.data.contains ')' = true) :
    SQLGenerator._get_sql_type p = pyUpper p.tipo := by
  have h2m : '(' ∈ (pyUpper p.tipo).data := by
    have hm : '(' ∈ p.tipo.data := by simpa using h2
    have hmm := List.mem_map_of_mem Char.toUpper hm
    simpa [pyUpper, show Char.toUpper '(' = '(' from by decide] using hmm
  have h3m : ')' ∈ (pyUpper p.tipo).data := by
    have hm : ')' ∈ p.tipo.data := by simpa using h3
    have hmm := List.mem_map_of_mem Char.toUpper hm
    simpa [pyUpper, show Char.toUpper ')' = ')' from by decide] using hmm
  unfold SQLGenerator._get_sql_type
  simp [h1, h2m, h3m]

/-- Closed witness for the amended C6 at the mixed-case display
`varchar(50)`, which is returned upper-cased. -/
theorem get_sql_type_display_uppercased_witness :
    SQLGenerator._get_sql_type cexDisplay = pyUpper cexDisplay.tipo :=
  get_sql_type_display_uppercased cexDisplay (by decide) (by decide) (by decide)

/-- C7 (counterexample). The claim "a base type not present in the fixed
lookup table falls through to its raw name unchanged" fails as stated: for a
descriptor with no display type and the unknown base type `foo` the function
returns the upper-cased `FOO`, not the raw name. -/
theorem get_sql_type_fallthrough_not_raw :
    cexFallthrough.tipo_base = "foo" ∧
    SQLGenerator.type_mapping (pyUpper cexFallthrough.tipo_base) = none ∧
    SQLGenerator._get_sql_type cexFallthrough = "FOO" ∧
    SQLGenerator._get_sql_type cexFallthrough ≠ cexFallthrough.tipo_base := by
  refine ⟨rfl, by decide, by decide, by decide⟩

/-- C7 (amended). The type mapper is total by construction (it is a plain
function defined for every descriptor) and a base type not present in the
fixed lookup table — and outside the character / exact-numeric / blob
families handled by the qualification rules — falls through to its
upper-cased raw name when no display type is recorded; a raw name that is
already upper-case is therefore returned unchanged. -/
theorem get_sql_type_fallthrough_uppercased (p : FieldProps)
    (h1 : p.tipo = "")
    (h2 : SQLGenerator.type_mapping (pyUpper p.tipo_base) = none)
    (h3 : pyUpper p.tipo_base ∉
      (["CHAR", "VARCHAR", "CHARACTER VARYING", "DECIMAL", "NUMERIC", "BLOB"] : List String)) :
    SQLGenerator._get_sql_type p = pyUpper p.tipo_base := by
  have hc1 : pyUpper p.tipo_base ≠ "CHAR" := fun he => h3 (by rw [he]; decide)
  have hc2 : pyUpper p.tipo_base ≠ "VARCHAR" := fun he => h3 (by rw [he]; decide)
  have hc3 : pyUpper p.tipo_base ≠ "CHARACTER VARYING" := fun he => h3 (by rw [he]; decide)
  have hc4 : pyUpper p.tipo_base ≠ "DECIMAL" := fun he => h3 (by rw [he]; decide)
  have hc5 : pyUpper p.tipo_base ≠ "NUMERIC" := fun he => h3 (by rw [he]; decide)
  have hc6 : pyUpper p.tipo_base ≠ "BLOB" := fun he => h3 (by rw [he]; decide)
  have hba : (if p.tipo_base ≠ "" then pyUpper p.tipo_base else "") = pyUpper p.tipo_base := by
    by_cases hb : p.tipo_base = ""
    · rw [hb]
      decide
    · simp [hb]
  unfold SQLGenerator._get_sql_type
  rw [h1]
  simp only [hba]
  simp [h2, hc1, hc2, hc3, hc4, hc5, hc6]

/-- Closed witness for the amended C7 at the unknown base type `WIDGET`. -/
theorem get_sql_type_fallthrough_uppercased_witness :
    SQLGenerator._get_sql_type propsWidget = pyUpper propsWidget.tipo_base :=
  get_sql_type_fallthrough_uppercased propsWidget rfl (by decide) (by decide)

theorem listGetAppend {α : Type} (a x : List α) (i : Nat) :
    (a ++ x)[a.length + i]? = x[i]? := by
  induction a with
  | nil => simp
  | cons h t ih =>
    have he : (h :: t).length + i = (t.length + i) + 1 := by
      simp [List.length_cons]
      omega
    rw [he]
    simpa using ih

theorem listGetAppendLt {α : Type} (a x : List α) (i : Nat) (h : i < a.length) :
    (a ++ x)[i]? = a[i]? := by
  induction a generalizing i with
  | nil => simp at h
  | cons hd t ih =>
    cases i with
    | zero => simp
    | succ j =>
      have hj : j < t.length := by simpa [List.length_cons] using h
      simpa using ih j hj

/-- C4. The flattened script of `get_sql_bd1`/`get_sql_bd2` lists the
accumulated statements in the fixed kind order generators, tables, fields,
primary keys, indexes, foreign keys, views, procedures, triggers; in
particular the position of any table statement strictly precedes any field
statement's, which precedes any primary key's, index's and foreign key's. -/
theorem creation_order_flattening :
    (∀ st : GenState,
      SQLGenerator.get_sql_bd1 st = SQLGenerator._build_final_sql st.sql_objects_bd1 ∧
      SQLGenerator.get_sql_bd2 st = SQLGenerator._build_final_sql st.sql_objects_bd2) ∧
    (∀ s : String → List String,
      SQLGenerator._build_final_list s =
        s "GENERADOR" ++ (s "TABLA" ++ (s "CAMPO" ++ (s "PRIMARY_KEY" ++ (s "INDICE" ++
          (s "FOREIGN_KEY" ++ (s "VISTA" ++ (s "PROCEDIMIENTO" ++ s "TRIGGER")))))))) ∧
    (∀ (s : String → List String) (jt jc jpk jix jfk : Nat),
      jt < (s "TABLA").length → jc < (s "CAMPO").length →
      jpk < (s "PRIMARY_KEY").length → jix < (s "INDICE").length →
      jfk < (s "FOREIGN_KEY").length →
      ((SQLGenerator._build_final_list s)[(s "GENERADOR").length + jt]? =
          (s "TABLA")[jt]? ∧
       (SQLGenerator._build_final_list s)[(s "GENERADOR").length + ((s "TABLA").length + jc)]? =
          (s "CAMPO")[jc]? ∧
       (SQLGenerator._build_final_list s)[(s "GENERADOR").length + ((s "TABLA").length +
          ((s "CAMPO").length + jpk))]? = (s "PRIMARY_KEY")[jpk]? ∧
       (SQLGenerator._build_final_list s)[(s "GENERADOR").length + ((s "TABLA").length +
          ((s "CAMPO").length + ((s "PRIMARY_KEY").length + jix)))]? = (s "INDICE")[jix]? ∧
       (SQLGenerator._build_final_list s)[(s "GENERADOR").length + ((s "TABLA").length +
          ((s "CAMPO").length + ((s "PRIMARY_KEY").length + ((s "INDICE").length + jfk))))]? =
          (s "FOREIGN_KEY")[jfk]? ∧
       (s "GENERADOR").length + jt <
          (s "GENERADOR").length + ((s "TABLA").length + jc) ∧
       (s "GENERADOR").length + ((s "TABLA").length + jc) <
          (s "GENERADOR").length + ((s "TABLA").length + ((s "CAMPO").length + jpk)) ∧
       (s "GENERADOR").length + ((s "TABLA").length + ((s "CAMPO").length + jpk)) <
          (s "GENERADOR").length + ((s "TABLA").length + ((s "CAMPO").length +
            ((s "PRIMARY_KEY").length + jix))) ∧
       (s "GENERADOR").length + ((s "TABLA").length + ((s "CAMPO").length +
          ((s "PRIMARY_KEY").length + jix))) <
          (s "GENERADOR").length + ((s "TABLA").length + ((s "CAMPO").length +
            ((s "PRIMARY_KEY").length + ((s "INDICE").length + jfk)))))) := by
  have hflat : ∀ s : String → List String,
      SQLGenerator._build_final_list s =
        s "GENERADOR" ++ (s "TABLA" ++ (s "CAMPO" ++ (s "PRIMARY_KEY" ++ (s "INDICE" ++
          (s "FOREIGN_KEY" ++ (s "VISTA" ++ (s "PROCEDIMIENTO" ++ s "TRIGGER"))))))) := by
    intro s
    simp [SQLGenerator._build_final_list, SQLGenerator.creation_order, listFlat]
  refine ⟨fun st => ⟨rfl, rfl⟩, hflat, ?_⟩
  intro s jt jc jpk jix jfk ht hc hpk hix hfk
  rw [hflat s]
  refine ⟨?_, ?_, ?_, ?_, ?_, by omega, by omega, by omega, by omega⟩
  · rw [listGetAppend]
    exact listGetAppendLt _ _ _ ht
  · rw [listGetAppend, listGetAppend]
    exact listGetAppendLt _ _ _ hc
  · rw [listGetAppend, listGetAppend, listGetAppend]
    exact listGetAppendLt _ _ _ hpk
  · rw [listGetAppend, listGetAppend, listGetAppend, listGetAppend]
    exact listGetAppendLt _ _ _ hix
  · rw [listGetAppend, listGetAppend, listGetAppend, listGetAppend, listGetAppend]
    exact listGetAppendLt _ _ _ hfk

/-- Closed witness for C4 on a concrete five-statement accumulator. -/
theorem creation_order_flattening_witness :
    (SQLGenerator._build_final_list accFive)[(accFive "GENERADOR").length + 0]? =
        (accFive "TABLA")[0]? ∧
    (accFive "GENERADOR").length + 0 <
        (accFive "GENERADOR").length + ((accFive "TABLA").length + 0) :=
  ⟨(creation_order_flattening.2.2 accFive 0 0 0 0 0 (by decide) (by decide) (by decide)
      (by decide) (by decide)).1,
   (creation_order_flattening.2.2 accFive 0 0 0 0 0 (by decide) (by decide) (by decide)
      (by decide) (by decide)).2.2.2.2.2.1⟩

theorem razon_ne_of_infeasible (props po : FieldProps)
    (h : (comparators._puede_modificar_campo props po).1 = false) :
    (comparators._puede_modificar_campo props po).2 ≠ "" := by
  unfold comparators._puede_modificar_campo
  unfold comparators._puede_modificar_campo at h
  split_ifs at h ⊢ <;>
    (intro he; exact absurd (congrArg String.data he) (List.cons_ne_nil _ _))

theorem nlFree_alterFieldCore (table campo : String) (props : FieldProps)
    (h1 : nlFree table) (h2 : nlFree campo)
    (h3 : nlFree (SQLGenerator._get_sql_type props))
    (h4 : nlFree props.charset_info)
    (h5 : nlFree (SQLGenerator.defaultClause props)) :
    nlFree (comparators.alterFieldCore table campo props) := by
  have e1 : nlFree ("ALTER TABLE " : String) := by decide
  have e2 : nlFree (" ALTER " : String) := by decide
  have e3 : nlFree (" TYPE " : String) := by decide
  have hi1 : nlFree (if props.charset_info ≠ "" ∧
      ¬ comparators._es_tipo_numerico (SQLGenerator._get_sql_type props) then
        props.charset_info else "") := by
    split_ifs
    · exact h4
    · decide
  have hi2 : nlFree (if props.nullable = "NO" then (" NOT NULL" : String) else "") := by
    split_ifs <;> decide
  exact nlFree_append (nlFree_append (nlFree_append (nlFree_append (nlFree_append
    (nlFree_append (nlFree_append (nlFree_append e1 h1) e2) h2) e3) h3) hi1) hi2) h5

/-- C1. For every in-place field modification that the feasibility check
rejects, the statement returned by the feasibility-aware
`generate_alter_field` still carries the full ALTER text, but is entirely
wrapped in `--` comment markers, line by line, and contains the non-empty
human-readable reason string; for a feasible modification the plain ALTER
statement is returned uncommented. -/
theorem alter_field_feasibility_wrapping
    (table campo : String) (props po : FieldProps) (destino : String) (st : GenState)
    (h1 : nlFree table) (h2 : nlFree campo)
    (h3 : nlFree (SQLGenerator._get_sql_type props))
    (h4 : nlFree props.charset_info)
    (h5 : nlFree (SQLGenerator.defaultClause props))
    (h6 : nlFree ((comparators._puede_modificar_campo props po).2)) :
    ((comparators._puede_modificar_campo props po).1 = false →
      ((comparators.generate_alter_field table campo props destino (some po) st).1 =
        "-- ⚠️ ADVERTENCIA: No se puede modificar " ++ table ++ "." ++ campo ++ " - " ++
          (comparators._puede_modificar_campo props po).2 ++ "\n-- " ++
          comparators.alterFieldText table campo props ∧
       (comparators._puede_modificar_campo props po).2 ≠ "" ∧
       subList ((comparators._puede_modificar_campo props po).2).data
         ((comparators.generate_alter_field table campo props destino (some po) st).1).data =
           true ∧
       subList (comparators.alterFieldText table campo props).data
         ((comparators.generate_alter_field table campo props destino (some po) st).1).data =
           true ∧
       (∃ l1 l2 : String,
         (comparators.generate_alter_field table campo props destino (some po) st).1 =
           "-- " ++ l1 ++ "\n-- " ++ l2 ++ "\n" ∧ nlFree l1 ∧ nlFree l2))) ∧
    ((comparators._puede_modificar_campo props po).1 = true →
      ((comparators.generate_alter_field table campo props destino (some po) st).1 =
        comparators.alterFieldText table campo props ∧
       startsList "ALTER TABLE ".data
         ((comparators.generate_alter_field table campo props destino (some po) st).1).data =
           true)) := by
  constructor
  · intro hp
    have hmain : (comparators.generate_alter_field table campo props destino (some po) st).1 =
        "-- ⚠️ ADVERTENCIA: No se puede modificar " ++ table ++ "." ++ campo ++ " - " ++
          (comparators._puede_modificar_campo props po).2 ++ "\n-- " ++
          comparators.alterFieldText table campo props := by
      unfold comparators.generate_alter_field
      simp [hp]
    refine ⟨hmain, razon_ne_of_infeasible props po hp, ?_, ?_, ?_⟩
    · rw [hmain]
      have hsplit : ("-- ⚠️ ADVERTENCIA: No se puede modificar " ++ table ++ "." ++ campo ++
            " - " ++ (comparators._puede_modificar_campo props po).2 ++ "\n-- " ++
            comparators.alterFieldText table campo props).data =
          ("-- ⚠️ ADVERTENCIA: No se puede modificar " ++ table ++ "." ++ campo ++
            " - ").data ++
            (((comparators._puede_modificar_campo props po).2).data ++
              ("\n-- " ++ comparators.alterFieldText table campo props).data) := by
        simp [str_data_append, List.append_assoc]
      rw [hsplit]
      exact subList_middle _ _ _
    · rw [hmain]
      have hsplit : ("-- ⚠️ ADVERTENCIA: No se puede modificar " ++ table ++ "." ++ campo ++
            " - " ++ (comparators._puede_modificar_campo props po).2 ++ "\n-- " ++
            comparators.alterFieldText table campo props).data =
          ("-- ⚠️ ADVERTENCIA: No se puede modificar " ++ table ++ "." ++ campo ++
            " - " ++ (comparators._puede_modificar_campo props po).2 ++ "\n-- ").data ++
            (comparators.alterFieldText table campo props).data := by
        simp [str_data_append, List.append_assoc]
      rw [hsplit]
      exact subList_append_self _ _
    · refine ⟨"⚠️ ADVERTENCIA: No se puede modificar " ++ table ++ "." ++ campo ++ " - " ++
          (comparators._puede_modificar_campo props po).2,
        comparators.alterFieldCore table campo props ++ ";", ?_, ?_, ?_⟩
      · rw [hmain]
        apply str_ext
        have ew : ("-- ⚠️ ADVERTENCIA: No se puede modificar ").data =
            ("-- ").data ++ ("⚠️ ADVERTENCIA: No se puede modificar ").data := rfl
        have es : ((";\n" : String)).data = ((";" : String)).data ++ (("\n" : String)).data := rfl
        simp only [comparators.alterFieldText, str_data_append, List.append_assoc, ew, es]
        simp [List.append_assoc]
      · exact nlFree_append (nlFree_append (nlFree_append (nlFree_append (nlFree_append
          (by decide) h1) (by decide)) h2) (by decide)) h6
      · exact nlFree_append (nlFree_alterFieldCore table campo props h1 h2 h3 h4 h5) (by decide)
  · intro hp
    have hmain : (comparators.generate_alter_field table campo props destino (some po) st).1 =
        comparators.alterFieldText table campo props := by
      unfold comparators.generate_alter_field
      simp [hp]
    refine ⟨hmain, ?_⟩
    rw [hmain]
    have hsplit : (comparators.alterFieldText table campo props).data =
        ("ALTER TABLE ").data ++ (table ++ " ALTER " ++ campo ++ " TYPE " ++
          SQLGenerator._get_sql_type props ++
          (if props.charset_info ≠ "" ∧
              ¬ comparators._es_tipo_numerico (SQLGenerator._get_sql_type props) then
            props.charset_info else "") ++
          (if props.nullable = "NO" then " NOT NULL" else "") ++
          SQLGenerator.defaultClause props ++ ";\n").data := by
      simp [comparators.alterFieldText, comparators.alterFieldCore, str_data_append,
        List.append_assoc]
    rw [hsplit]
    exact startsList_self_append _ _

/-- Closed witness for C1: the infeasible `VARCHAR(50)` → `VARCHAR(5)` shrink
produces the commented statement. -/
theorem alter_field_feasibility_wrapping_witness :
    (comparators.generate_alter_field "CUSTOMER" "NAME" propsNAME5 "BD1" (some propsNAME50)
        emptyGenState).1 =
      "-- ⚠️ ADVERTENCIA: No se puede modificar " ++ "CUSTOMER" ++ "." ++ "NAME" ++ " - " ++
        (comparators._puede_modificar_campo propsNAME5 propsNAME50).2 ++ "\n-- " ++
        comparators.alterFieldText "CUSTOMER" "NAME" propsNAME5 :=
  ((alter_field_feasibility_wrapping "CUSTOMER" "NAME" propsNAME5 propsNAME50 "BD1"
      emptyGenState (by decide) (by decide) (by decide) (by decide) (by decide)
      (by decide)).1 (by decide)).1

theorem genRow3_countP (c1 c2 : DBSnap) (g : String) (l : List String) (hnd : l.Nodup) :
    ((listFlat (comparators.genRow3 c1 c2) l).countP (fun r => r.nombre == g)) =
      if g ∈ l ∧ tryRead (c1.genValue g) ≠ tryRead (c2.genValue g) then 1 else 0 := by
  induction l with
  | nil => simp [listFlat]
  | cons t ts ih =>
    have hpair := List.nodup_cons.mp hnd
    have hnt : t ∉ ts := hpair.1
    have hnd' : ts.Nodup := hpair.2
    show ((comparators.genRow3 c1 c2 t ++ listFlat (comparators.genRow3 c1 c2) ts).countP
        (fun r => r.nombre == g)) = _
    rw [List.countP_append, ih hnd']
    by_cases hg : t = g
    · subst hg
      by_cases hv : tryRead (c1.genValue t) ≠ tryRead (c2.genValue t)
      · have h1 : (comparators.genRow3 c1 c2 t).countP (fun r => r.nombre == t) = 1 := by
          rw [comparators.genRow3, if_pos hv, agregar_dif]
          simp
        rw [h1]
        simp [hnt, hv]
      · have h1 : (comparators.genRow3 c1 c2 t).countP (fun r => r.nombre == t) = 0 := by
          rw [comparators.genRow3, if_neg hv]
          simp
        rw [h1]
        simp [hnt, hv]
    · have h1 : (comparators.genRow3 c1 c2 t).countP (fun r => r.nombre == g) = 0 := by
        by_cases hv : tryRead (c1.genValue t) ≠ tryRead (c2.genValue t)
        · rw [comparators.genRow3, if_pos hv, agregar_dif]
          simp [hg]
        · rw [comparators.genRow3, if_neg hv]
          simp
      rw [h1]
      by_cases hmem : g ∈ ts <;> simp [hmem, hg, Ne.symm hg]

/-- C5. For a sequence name present in both snapshots, a read failure on
either side is caught and treated as unknown: unknown against a known value
(or any unequal pair of recovered values) yields exactly one record for that
name, and it is a `DIFERENTE` record; unknown against unknown — like two
equal known values — yields no record for that name. -/
theorem generator_unknown_tolerance (c1 c2 : DBSnap) (st : GenState) (g : String)
    (hg1 : g ∈ c1.generators) (hg2 : g ∈ c2.generators) :
    (tryRead (c1.genValue g) ≠ tryRead (c2.genValue g) →
      ((comparators.comparar_generadores c1 c2 st).1.countP (fun r => r.nombre == g) = 1 ∧
       ∀ r ∈ (comparators.comparar_generadores c1 c2 st).1,
         r.nombre = g → r.estatus = "DIFERENTE")) ∧
    (tryRead (c1.genValue g) = tryRead (c2.genValue g) →
      (comparators.comparar_generadores c1 c2 st).1.countP (fun r => r.nombre == g) = 0) := by
  have hc1 : ((listFlat (comparators.genRow1 c1)
      (sortedSetDiff c1.generators c2.generators)).countP (fun r => r.nombre == g)) = 0 := by
    rw [List.countP_eq_zero]
    intro r hr
    rcases mem_listFlat.mp hr with ⟨t, ht, hrt⟩
    rw [comparators.genRow1, agregar_no2] at hrt
    rcases List.mem_singleton.mp hrt with rfl
    have hne : t ≠ g := fun he => (mem_sortedSetDiff.mp ht).2 (he ▸ hg2)
    simp [hne]
  have hc2 : ((listFlat (comparators.genRow2 c2)
      (sortedSetDiff c2.generators c1.generators)).countP (fun r => r.nombre == g)) = 0 := by
    rw [List.countP_eq_zero]
    intro r hr
    rcases mem_listFlat.mp hr with ⟨t, ht, hrt⟩
    rw [comparators.genRow2, agregar_no1] at hrt
    rcases List.mem_singleton.mp hrt with rfl
    have hne : t ≠ g := fun he => (mem_sortedSetDiff.mp ht).2 (he ▸ hg1)
    simp [hne]
  have hmem : g ∈ sortedSetInter c1.generators c2.generators :=
    mem_sortedSetInter.mpr ⟨hg1, hg2⟩
  have hcount : ((comparators.comparar_generadores c1 c2 st).1.countP
      (fun r => r.nombre == g)) =
      (if tryRead (c1.genValue g) ≠ tryRead (c2.genValue g) then 1 else 0) := by
    rw [comparar_generadores_records, List.countP_append, List.countP_append, hc1, hc2,
      genRow3_countP c1 c2 g _ (nodup_sortedSetInter _ _)]
    simp [hmem]
  constructor
  · intro hne
    refine ⟨by rw [hcount]; simp [hne], ?_⟩
    intro r hr hname
    rw [comparar_generadores_records] at hr
    rcases List.mem_append.mp hr with h | h
    · rcases mem_listFlat.mp h with ⟨t, ht, hrt⟩
      rw [comparators.genRow1, agregar_no2] at hrt
      rcases List.mem_singleton.mp hrt with rfl
      have hte : t = g := hname
      exact absurd (hte ▸ hg2) (mem_sortedSetDiff.mp ht).2
    · rcases List.mem_append.mp h with h | h
      · rcases mem_listFlat.mp h with ⟨t, ht, hrt⟩
        rw [comparators.genRow2, agregar_no1] at hrt
        rcases List.mem_singleton.mp hrt with rfl
        have hte : t = g := hname
        exact absurd (hte ▸ hg1) (mem_sortedSetDiff.mp ht).2
      · rcases mem_listFlat.mp h with ⟨t, ht, hrt⟩
        by_cases hv : tryRead (c1.genValue t) ≠ tryRead (c2.genValue t)
        · rw [comparators.genRow3, if_pos hv, agregar_dif] at hrt
          rcases List.mem_singleton.mp hrt with rfl
          rfl
        · rw [comparators.genRow3, if_neg hv] at hrt
          exact absurd hrt (List.not_mem_nil r)
  · intro heq
    rw [hcount]
    simp [heq]

/-- Closed witness for C5: `GEN_ID` unreadable on the left and `42` on the
right yields exactly one record for it. -/
theorem generator_unknown_tolerance_witness :
    (comparators.comparar_generadores dbGenUnreadable dbGen42 emptyGenState).1.countP
      (fun r => r.nombre == "GEN_ID") = 1 :=
  ((generator_unknown_tolerance dbGenUnreadable dbGen42 emptyGenState "GEN_ID"
      (by decide) (by decide)).1 (by decide)).1

/-- C2. Evaluating the fields comparator on the `CUSTOMER` snapshots (`ID`
identical, `NAME` length 50 vs 30) with the five-parameter
`generate_alter_field` — the only definition matching the arity of the calls
at comparators.py lines 153/156; the four-parameter method actually bound to
the `SQLGenerator` class would reject those calls with a `TypeError` —
produces exactly one `DIFERENTE` record for `Campos_CUSTOMER`/`NAME` with
difference detail `longitud: 50 vs 30`, whose two ALTER statements carry the
opposing side's target length. -/
theorem customer_name_length_scenario :
    ((comparators.comparar_campos_tabla dbCustomerL dbCustomerR "CUSTOMER" emptyGenState).1.map
        (fun r => (r.hoja, r.nombre, r.estatus, r.detalle1, r.detalle2, r.diferencia))) =
      [("Campos_CUSTOMER", "NAME", "DIFERENTE", "Tipo: VARCHAR(50), Nullable: SI",
        "Tipo: VARCHAR(30), Nullable: SI", "longitud: 50 vs 30")] ∧
    ((comparators.comparar_campos_tabla dbCustomerL dbCustomerR "CUSTOMER" emptyGenState).1.map
        (fun r => subList "ALTER TABLE CUSTOMER ALTER NAME TYPE VARCHAR(30)".data
          r.sql_bd1.data)) = [true] ∧
    ((comparators.comparar_campos_tabla dbCustomerL dbCustomerR "CUSTOMER" emptyGenState).1.map
        (fun r => subList "ALTER TABLE CUSTOMER ALTER NAME TYPE VARCHAR(50)".data
          r.sql_bd2.data)) = [true] := by
  refine ⟨by decide, by decide, by decide⟩

/-- C8. The index/primary-key comparator branches on table existence before
any attribute comparison: a table present in exactly one snapshot still
contributes every one of its indexes, and its non-empty primary key, as a
one-sided difference record carrying the synthesized creation statement. -/
theorem one_sided_table_indexes_reported (c1 c2 : DBSnap) (st : GenState) (tabla : String) :
    (tabla ∈ c1.tables → tabla ∉ c2.tables →
      ((∀ idx info, (idx, info) ∈ c1.indexes tabla →
        ∃ r ∈ (comparators.comparar_indices_pk c1 c2 st).1,
          r.hoja = "Indices_" ++ tabla ∧ r.nombre = idx ∧ r.estatus = "NO EXISTE EN BD2" ∧
          r.sql_bd1 = SQLGenerator.createIndexText tabla idx info) ∧
       (c1.pks tabla ≠ [] →
        ∃ r ∈ (comparators.comparar_indices_pk c1 c2 st).1,
          r.hoja = "PK_" ++ tabla ∧ r.nombre = joinSep "," (c1.pks tabla) ∧
          r.estatus = "NO EXISTE EN BD2" ∧
          r.sql_bd1 = SQLGenerator.createPKText tabla (c1.pks tabla)))) ∧
    (tabla ∈ c2.tables → tabla ∉ c1.tables →
      ((∀ idx info, (idx, info) ∈ c2.indexes tabla →
        ∃ r ∈ (comparators.comparar_indices_pk c1 c2 st).1,
          r.hoja = "Indices_" ++ tabla ∧ r.nombre = idx ∧ r.estatus = "NO EXISTE EN BD1" ∧
          r.sql_bd2 = SQLGenerator.createIndexText tabla idx info) ∧
       (c2.pks tabla ≠ [] →
        ∃ r ∈ (comparators.comparar_indices_pk c1 c2 st).1,
          r.hoja = "PK_" ++ tabla ∧ r.nombre = joinSep "," (c2.pks tabla) ∧
          r.estatus = "NO EXISTE EN BD1" ∧
          r.sql_bd2 = SQLGenerator.createPKText tabla (c2.pks tabla)))) := by
  constructor
  · intro h1 h2
    have htodas : tabla ∈ sortStr ((c1.tables ++ c2.tables).dedup) := by
      rw [(sortStr_perm _).mem_iff, List.mem_dedup, List.mem_append]
      exact Or.inl h1
    constructor
    · intro idx info hin
      rw [comparar_indices_pk_records]
      refine ⟨⟨"Indices_" ++ tabla, idx, "NO EXISTE EN BD2", indexInfoStr info, "",
        SQLGenerator.createIndexText tabla idx info, "", ""⟩, ?_, rfl, rfl, rfl, rfl⟩
      apply mem_listFlat.mpr
      refine ⟨tabla, htodas, ?_⟩
      unfold comparators.indicesPkRows
      rw [if_neg (fun hand => h2 hand.2), if_pos h1]
      apply List.mem_append.mpr
      left
      apply mem_listFlat.mpr
      refine ⟨(idx, info), hin, ?_⟩
      rw [comparators.idxPairRow1, agregar_no2]
      exact List.mem_singleton.mpr rfl
    · intro hpk
      have hne : ¬ (c1.pks tabla).isEmpty := by
        cases hpl : c1.pks tabla with
        | nil => exact absurd hpl hpk
        | cons a l => simp [hpl]
      rw [comparar_indices_pk_records]
      refine ⟨⟨"PK_" ++ tabla, joinSep "," (c1.pks tabla), "NO EXISTE EN BD2",
        pyReprList (c1.pks tabla), "", SQLGenerator.createPKText tabla (c1.pks tabla), "", ""⟩,
        ?_, rfl, rfl, rfl, rfl⟩
      apply mem_listFlat.mpr
      refine ⟨tabla, htodas, ?_⟩
      unfold comparators.indicesPkRows
      rw [if_neg (fun hand => h2 hand.2), if_pos h1]
      apply List.mem_append.mpr
      right
      rw [if_pos hne, agregar_no2]
      exact List.mem_singleton.mpr rfl
  · intro h1 h2
    have htodas : tabla ∈ sortStr ((c1.tables ++ c2.tables).dedup) := by
      rw [(sortStr_perm _).mem_iff, List.mem_dedup, List.mem_append]
      exact Or.inr h1
    constructor
    · intro idx info hin
      rw [comparar_indices_pk_records]
      refine ⟨⟨"Indices_" ++ tabla, idx, "NO EXISTE EN BD1", "", indexInfoStr info, "",
        SQLGenerator.createIndexText tabla idx info, ""⟩, ?_, rfl, rfl, rfl, rfl⟩
      apply mem_listFlat.mpr
      refine ⟨tabla, htodas, ?_⟩
      unfold comparators.indicesPkRows
      rw [if_neg (fun hand => h2 hand.1), if_neg h2]
      apply List.mem_append.mpr
      left
      apply mem_listFlat.mpr
      refine ⟨(idx, info), hin, ?_⟩
      rw [comparators.idxPairRow2, agregar_no1]
      exact List.mem_singleton.mpr rfl
    · intro hpk
      have hne : ¬ (c2.pks tabla).isEmpty := by
        cases hpl : c2.pks tabla with
        | nil => exact absurd hpl hpk
        | cons a l => simp [hpl]
      rw [comparar_indices_pk_records]
      refine ⟨⟨"PK_" ++ tabla, joinSep "," (c2.pks tabla), "NO EXISTE EN BD1",
        "", pyReprList (c2.pks tabla), "", SQLGenerator.createPKText tabla (c2.pks tabla), ""⟩,
        ?_, rfl, rfl, rfl, rfl⟩
      apply mem_listFlat.mpr
      refine ⟨tabla, htodas, ?_⟩
      unfold comparators.indicesPkRows
      rw [if_neg (fun hand => h2 hand.1), if_neg h2]
      apply List.mem_append.mpr
      right
      rw [if_pos hne, agregar_no1]
      exact List.mem_singleton.mpr rfl

/-- Closed witness for C8: table `T` with index `IDX1` and PK `(A)` exists
only on the left; its index shows up as a one-sided record. -/
theorem one_sided_table_indexes_reported_witness :
    ((comparators.comparar_indices_pk dbIdxOnly dbEmpty emptyGenState).1.any
      (fun r => r.hoja == "Indices_" ++ "T" && r.nombre == "IDX1" &&
        r.estatus == "NO EXISTE EN BD2" &&
        r.sql_bd1 == SQLGenerator.createIndexText "T" "IDX1" ⟨false, "A"⟩)) = true := by
  have h := ((one_sided_table_indexes_reported dbIdxOnly dbEmpty emptyGenState "T").1
    (by decide) (by decide)).1 "IDX1" ⟨false, "A"⟩ (by decide)
  rcases h with ⟨r, hr, e1, e2, e3, e4⟩
  apply List.any_eq_true.mpr
  refine ⟨r, hr, ?_⟩
  rw [e1, e2, e3, e4]
  decide

theorem indicesPkRows_hoja (c1 c2 : DBSnap) (t1 t2 : List String) (t' : String) (r : Record)
    (hr : r ∈ comparators.indicesPkRows c1 c2 t1 t2 t') :
    r.hoja = "Indices_" ++ t' ∨ r.hoja = "PK_" ++ t' := by
  unfold comparators.indicesPkRows at hr
  by_cases hb : t' ∈ t1 ∧ t' ∈ t2
  · rw [if_pos hb] at hr
    simp only [List.mem_append] at hr
    rcases hr with ((h | h) | h) | h
    · rcases mem_listFlat.mp h with ⟨idx, _, hrt⟩
      rw [comparators.idxRow1, agregar_no2] at hrt
      rcases List.mem_singleton.mp hrt with rfl
      exact Or.inl rfl
    · rcases mem_listFlat.mp h with ⟨idx, _, hrt⟩
      rw [comparators.idxRow2, agregar_no1] at hrt
      rcases List.mem_singleton.mp hrt with rfl
      exact Or.inl rfl
    · rcases mem_listFlat.mp h with ⟨idx, _, hrt⟩
      rw [comparators.idxRow3] at hrt
      by_cases hd : dlookup (c1.indexes t') idx defaultIndexInfo ≠
          dlookup (c2.indexes t') idx defaultIndexInfo
      · rw [if_pos hd, agregar_dif] at hrt
        rcases List.mem_singleton.mp hrt with rfl
        exact Or.inl rfl
      · rw [if_neg hd] at hrt
        exact absurd hrt (List.not_mem_nil r)
    · by_cases hpk : c1.pks t' ≠ c2.pks t'
      · rw [if_pos hpk, agregar_dif] at h
        rcases List.mem_singleton.mp h with rfl
        exact Or.inr rfl
      · rw [if_neg hpk] at h
        exact absurd h (List.not_mem_nil r)
  · rw [if_neg hb] at hr
    by_cases h1 : t' ∈ t1
    · rw [if_pos h1] at hr
      rcases List.mem_append.mp hr with h | h
      · rcases mem_listFlat.mp h with ⟨p, _, hrt⟩
        rw [comparators.idxPairRow1, agregar_no2] at hrt
        rcases List.mem_singleton.mp hrt with rfl
        exact Or.inl rfl
      · by_cases hp : ¬ (c1.pks t').isEmpty
        · rw [if_pos hp, agregar_no2] at h
          rcases List.mem_singleton.mp h with rfl
          exact Or.inr rfl
        · rw [if_neg hp] at h
          exact absurd h (List.not_mem_nil r)
    · rw [if_neg h1] at hr
      rcases List.mem_append.mp hr with h | h
      · rcases mem_listFlat.mp h with ⟨p, _, hrt⟩
        rw [comparators.idxPairRow2, agregar_no1] at hrt
        rcases List.mem_singleton.mp hrt with rfl
        exact Or.inl rfl
      · by_cases hp : ¬ (c2.pks t').isEmpty
        · rw [if_pos hp, agregar_no1] at h
          rcases List.mem_singleton.mp h with rfl
          exact Or.inr rfl
        · rw [if_neg hp] at h
          exact absurd h (List.not_mem_nil r)

theorem ne_name_of_diff {t n : String} {a b : List String}
    (ht : t ∈ sortedSetDiff a b) (hn : n ∈ b) : t ≠ n :=
  fun he => (mem_sortedSetDiff.mp ht).2 (he ▸ hn)

/-- C3. No-noise invariant: for every object category and every object name
present in both snapshots, if the two sides compare equal under that
category's rule, the comparator appends no difference record for that name —
tables and views (existence), fields (compared property set), indexes
(attribute equality), primary keys (ordered list equality), foreign keys,
triggers and procedures (full attribute equality), and sequences (recovered
current values). -/
theorem no_noise_invariant :
    (∀ (c1 c2 : DBSnap) (st : GenState) (name : String),
      name ∈ c1.tables → name ∈ c2.tables →
      ∀ r ∈ (comparators.comparar_tablas c1 c2 st).1, r.nombre ≠ name) ∧
    (∀ (c1 c2 : DBSnap) (tabla : String) (st : GenState) (c : String),
      c ∈ (c1.fields tabla).map Prod.fst → c ∈ (c2.fields tabla).map Prod.fst →
      (comparators.camposDiff (dlookup (c1.fields tabla) c defaultFieldProps)
        (dlookup (c2.fields tabla) c defaultFieldProps)).1 = false →
      ∀ r ∈ (comparators.comparar_campos_tabla c1 c2 tabla st).1, r.nombre ≠ c) ∧
    (∀ (c1 c2 : DBSnap) (st : GenState) (tabla idx : String),
      tabla ∈ c1.tables → tabla ∈ c2.tables →
      idx ∈ (c1.indexes tabla).map Prod.fst → idx ∈ (c2.indexes tabla).map Prod.fst →
      dlookup (c1.indexes tabla) idx defaultIndexInfo =
        dlookup (c2.indexes tabla) idx defaultIndexInfo →
      ∀ r ∈ (comparators.comparar_indices_pk c1 c2 st).1,
        ¬ (r.hoja = "Indices_" ++ tabla ∧ r.nombre = idx)) ∧
    (∀ (c1 c2 : DBSnap) (st : GenState) (tabla : String),
      tabla ∈ c1.tables → tabla ∈ c2.tables →
      c1.pks tabla = c2.pks tabla →
      ∀ r ∈ (comparators.comparar_indices_pk c1 c2 st).1, r.hoja ≠ "PK_" ++ tabla) ∧
    (∀ (c1 c2 : DBSnap) (tabla : String) (st : GenState) (fk : String),
      fk ∈ (c1.fks tabla).map Prod.fst → fk ∈ (c2.fks tabla).map Prod.fst →
      dlookup (c1.fks tabla) fk defaultFKInfo = dlookup (c2.fks tabla) fk defaultFKInfo →
      ∀ r ∈ (comparators.comparar_foreign_keys c1 c2 tabla st).1, r.nombre ≠ fk) ∧
    (∀ (c1 c2 : DBSnap) (st : GenState) (t : String),
      t ∈ c1.triggers.map Prod.fst → t ∈ c2.triggers.map Prod.fst →
      dlookup c1.triggers t defaultTriggerInfo = dlookup c2.triggers t defaultTriggerInfo →
      ∀ r ∈ (comparators.comparar_triggers c1 c2 st).1, r.nombre ≠ t) ∧
    (∀ (c1 c2 : DBSnap) (st : GenState) (p : String),
      p ∈ c1.procedures.map Prod.fst → p ∈ c2.procedures.map Prod.fst →
      dlookup c1.procedures p defaultProcInfo = dlookup c2.procedures p defaultProcInfo →
      ∀ r ∈ (comparators.comparar_procedimientos c1 c2 st).1, r.nombre ≠ p) ∧
    (∀ (c1 c2 : DBSnap) (st : GenState) (name : String),
      name ∈ c1.views → name ∈ c2.views →
      ∀ r ∈ (comparators.comparar_vistas c1 c2 st).1, r.nombre ≠ name) ∧
    (∀ (c1 c2 : DBSnap) (st : GenState) (g : String),
      g ∈ c1.generators → g ∈ c2.generators →
      tryRead (c1.genValue g) = tryRead (c2.genValue g) →
      ∀ r ∈ (comparators.comparar_generadores c1 c2 st).1, r.nombre ≠ g) := by
  refine ⟨?_, ?_, ?_, ?_, ?_, ?_, ?_, ?_, ?_⟩
  · -- tables: existence only
    intro c1 c2 st name h1 h2 r hr
    rw [comparar_tablas_records] at hr
    rcases List.mem_append.mp hr with h | h
    · rcases mem_listFlat.mp h with ⟨t, ht, hrt⟩
      rw [comparators.tablasRow1, agregar_no2] at hrt
      rcases List.mem_singleton.mp hrt with rfl
      exact ne_name_of_diff ht h2
    · rcases mem_listFlat.mp h with ⟨t, ht, hrt⟩
      rw [comparators.tablasRow2, agregar_no1] at hrt
      rcases List.mem_singleton.mp hrt with rfl
      exact ne_name_of_diff ht h1
  · -- fields of one table
    intro c1 c2 tabla st c h1 h2 heq r hr
    rw [comparar_campos_records] at hr
    rcases List.mem_append.mp hr with h | h
    · rcases mem_listFlat.mp h with ⟨t, ht, hrt⟩
      rw [comparators.camposRow1, agregar_no2] at hrt
      rcases List.mem_singleton.mp hrt with rfl
      exact ne_name_of_diff ht h2
    · rcases List.mem_append.mp h with h | h
      · rcases mem_listFlat.mp h with ⟨t, ht, hrt⟩
        rw [comparators.camposRow2, agregar_no1] at hrt
        rcases List.mem_singleton.mp hrt with rfl
        exact ne_name_of_diff ht h1
      · rcases mem_listFlat.mp h with ⟨t, ht, hrt⟩
        simp only [comparators.camposRow3] at hrt
        by_cases hteq : t = c
        · subst hteq
          rw [if_neg (by rw [heq]; exact Bool.false_ne_true)] at hrt
          exact absurd hrt (List.not_mem_nil r)
        · by_cases hd : (comparators.camposDiff (dlookup (c1.fields tabla) t defaultFieldProps)
              (dlookup (c2.fields tabla) t defaultFieldProps)).1 = true
          · rw [if_pos hd, agregar_dif] at hrt
            rcases List.mem_singleton.mp hrt with rfl
            exact fun he => hteq he
          · rw [if_neg hd] at hrt
            exact absurd hrt (List.not_mem_nil r)
  · -- indexes of a table present on both sides
    rintro c1 c2 st tabla idx h1 h2 hik1 hik2 heq r hr ⟨hH, hN⟩
    rw [comparar_indices_pk_records] at hr
    rcases mem_listFlat.mp hr with ⟨t', ht', hrt⟩
    by_cases hteq : t' = tabla
    · subst hteq
      unfold comparators.indicesPkRows at hrt
      rw [if_pos ⟨h1, h2⟩] at hrt
      simp only [List.mem_append] at hrt
      rcases hrt with ((h | h) | h) | h
      · rcases mem_listFlat.mp h with ⟨idx1, hi, hrt⟩
        rw [comparators.idxRow1, agregar_no2] at hrt
        rcases List.mem_singleton.mp hrt with rfl
        have he : idx1 = idx := hN
        exact (mem_sortedSetDiff.mp hi).2 (he ▸ hik2)
      · rcases mem_listFlat.mp h with ⟨idx1, hi, hrt⟩
        rw [comparators.idxRow2, agregar_no1] at hrt
        rcases List.mem_singleton.mp hrt with rfl
        have he : idx1 = idx := hN
        exact (mem_sortedSetDiff.mp hi).2 (he ▸ hik1)
      · rcases mem_listFlat.mp h with ⟨idx1, hi, hrt⟩
        rw [comparators.idxRow3] at hrt
        by_cases hd : dlookup (c1.indexes t') idx1 defaultIndexInfo ≠
            dlookup (c2.indexes t') idx1 defaultIndexInfo
        · rw [if_pos hd, agregar_dif] at hrt
          rcases List.mem_singleton.mp hrt with rfl
          have he : idx1 = idx := hN
          exact hd (he ▸ heq)
        · rw [if_neg hd] at hrt
          exact absurd hrt (List.not_mem_nil r)
      · by_cases hpk : c1.pks t' ≠ c2.pks t'
        · rw [if_pos hpk, agregar_dif] at h
          rcases List.mem_singleton.mp h with rfl
          exact pk_ne_indices t' t' hH
        · rw [if_neg hpk] at h
          exact absurd h (List.not_mem_nil r)
    · rcases indicesPkRows_hoja c1 c2 c1.tables c2.tables t' r hrt with hh | hh
      · exact hteq (strApp_left_cancel ((hh.symm.trans hH)))
      · exact pk_ne_indices t' tabla (hh.symm.trans hH)
  · -- primary key of a table present on both sides
    intro c1 c2 st tabla h1 h2 heq r hr hH
    rw [comparar_indices_pk_records] at hr
    rcases mem_listFlat.mp hr with ⟨t', ht', hrt⟩
    by_cases hteq : t' = tabla
    · subst hteq
      unfold comparators.indicesPkRows at hrt
      rw [if_pos ⟨h1, h2⟩] at hrt
      simp only [List.mem_append] at hrt
      rcases hrt with ((h | h) | h) | h
      · rcases mem_listFlat.mp h with ⟨idx1, _, hrt⟩
        rw [comparators.idxRow1, agregar_no2] at hrt
        rcases List.mem_singleton.mp hrt with rfl
        exact pk_ne_indices t' t' (hH.symm)
      · rcases mem_listFlat.mp h with ⟨idx1, _, hrt⟩
        rw [comparators.idxRow2, agregar_no1] at hrt
        rcases List.mem_singleton.mp hrt with rfl
        exact pk_ne_indices t' t' (hH.symm)
      · rcases mem_listFlat.mp h with ⟨idx1, _, hrt⟩
        rw [comparators.idxRow3] at hrt
        by_cases hd : dlookup (c1.indexes t') idx1 defaultIndexInfo ≠
            dlookup (c2.indexes t') idx1 defaultIndexInfo
        · rw [if_pos hd, agregar_dif] at hrt
          rcases List.mem_singleton.mp hrt with rfl
          exact pk_ne_indices t' t' (hH.symm)
        · rw [if_neg hd] at hrt
          exact absurd hrt (List.not_mem_nil r)
      · rw [if_neg (fun hne => hne heq)] at h
        exact absurd h (List.not_mem_nil r)
    · rcases indicesPkRows_hoja c1 c2 c1.tables c2.tables t' r hrt with hh | hh
      · exact pk_ne_indices tabla t' (hH.symm.trans hh)
      · exact hteq (strApp_left_cancel (hh.symm.trans hH))
  · -- foreign keys of one table
    intro c1 c2 tabla st fk h1 h2 heq r hr
    rw [comparar_foreign_keys_records] at hr
    rcases List.mem_append.mp hr with h | h
    · rcases mem_listFlat.mp h with ⟨t, ht, hrt⟩
      rw [comparators.fkRow1, agregar_no2] at hrt
      rcases List.mem_singleton.mp hrt with rfl
      exact ne_name_of_diff ht h2
    · rcases List.mem_append.mp h with h | h
      · rcases mem_listFlat.mp h with ⟨t, ht, hrt⟩
        rw [comparators.fkRow2, agregar_no1] at hrt
        rcases List.mem_singleton.mp hrt with rfl
        exact ne_name_of_diff ht h1
      · rcases mem_listFlat.mp h with ⟨t, ht, hrt⟩
        rw [comparators.fkRow3] at hrt
        by_cases hteq : t = fk
        · subst hteq
          rw [if_neg (fun hne => hne heq)] at hrt
          exact absurd hrt (List.not_mem_nil r)
        · by_cases hd : dlookup (c1.fks tabla) t defaultFKInfo ≠
              dlookup (c2.fks tabla) t defaultFKInfo
          · rw [if_pos hd, agregar_dif] at hrt
            rcases List.mem_singleton.mp hrt with rfl
            exact fun he => hteq he
          · rw [if_neg hd] at hrt
            exact absurd hrt (List.not_mem_nil r)
  · -- triggers
    intro c1 c2 st t h1 h2 heq r hr
    rw [comparar_triggers_records] at hr
    rcases List.mem_append.mp hr with h | h
    · rcases mem_listFlat.mp h with ⟨t', ht, hrt⟩
      rw [comparators.trigRow1, agregar_no2] at hrt
      rcases List.mem_singleton.mp hrt with rfl
      exact ne_name_of_diff ht h2
    · rcases List.mem_append.mp h with h | h
      · rcases mem_listFlat.mp h with ⟨t', ht, hrt⟩
        rw [comparators.trigRow2, agregar_no1] at hrt
        rcases List.mem_singleton.mp hrt with rfl
        exact ne_name_of_diff ht h1
      · rcases mem_listFlat.mp h with ⟨t', ht, hrt⟩
        rw [comparators.trigRow3] at hrt
        by_cases hteq : t' = t
        · subst hteq
          rw [if_neg (fun hne => hne heq)] at hrt
          exact absurd hrt (List.not_mem_nil r)
        · by_cases hd : dlookup c1.triggers t' defaultTriggerInfo ≠
              dlookup c2.triggers t' defaultTriggerInfo
          · rw [if_pos hd, agregar_dif] at hrt
            rcases List.mem_singleton.mp hrt with rfl
            exact fun he => hteq he
          · rw [if_neg hd] at hrt
            exact absurd hrt (List.not_mem_nil r)
  · -- procedures
    intro c1 c2 st p h1 h2 heq r hr
    rw [comparar_procedimientos_records] at hr
    rcases List.mem_append.mp hr with h | h
    · rcases mem_listFlat.mp h with ⟨t', ht, hrt⟩
      rw [comparators.procRow1, agregar_no2] at hrt
      rcases List.mem_singleton.mp hrt with rfl
      exact ne_name_of_diff ht h2
    · rcases List.mem_append.mp h with h | h
      · rcases mem_listFlat.mp h with ⟨t', ht, hrt⟩
        rw [comparators.procRow2, agregar_no1] at hrt
        rcases List.mem_singleton.mp hrt with rfl
        exact ne_name_of_diff ht h1
      · rcases mem_listFlat.mp h with ⟨t', ht, hrt⟩
        rw [comparators.procRow3] at hrt
        by_cases hteq : t' = p
        · subst hteq
          rw [if_neg (fun hne => hne heq)] at hrt
          exact absurd hrt (List.not_mem_nil r)
        · by_cases hd : dlookup c1.procedures t' defaultProcInfo ≠
              dlookup c2.procedures t' defaultProcInfo
          · rw [if_pos hd, agregar_dif] at hrt
            rcases List.mem_singleton.mp hrt with rfl
            exact fun he => hteq he
          · rw [if_neg hd] at hrt
            exact absurd hrt (List.not_mem_nil r)
  · -- views: existence only
    intro c1 c2 st name h1 h2 r hr
    rw [comparar_vistas_records] at hr
    rcases List.mem_append.mp hr with h | h
    · rcases mem_listFlat.mp h with ⟨t, ht, hrt⟩
      rw [comparators.vistaRow1, agregar_no2] at hrt
      rcases List.mem_singleton.mp hrt with rfl
      exact ne_name_of_diff ht h2
    · rcases mem_listFlat.mp h with ⟨t, ht, hrt⟩
      rw [comparators.vistaRow2, agregar_no1] at hrt
      rcases List.mem_singleton.mp hrt with rfl
      exact ne_name_of_diff ht h1
  · -- sequences
    intro c1 c2 st g h1 h2 heq r hr
    rw [comparar_generadores_records] at hr
    rcases List.mem_append.mp hr with h | h
    · rcases mem_listFlat.mp h with ⟨t, ht, hrt⟩
      rw [comparators.genRow1, agregar_no2] at hrt
      rcases List.mem_singleton.mp hrt with rfl
      exact ne_name_of_diff ht h2
    · rcases List.mem_append.mp h with h | h
      · rcases mem_listFlat.mp h with ⟨t, ht, hrt⟩
        rw [comparators.genRow2, agregar_no1] at hrt
        rcases List.mem_singleton.mp hrt with rfl
        exact ne_name_of_diff ht h1
      · rcases mem_listFlat.mp h with ⟨t, ht, hrt⟩
        rw [comparators.genRow3] at hrt
        by_cases hteq : t = g
        · subst hteq
          rw [if_neg (fun hne => hne heq)] at hrt
          exact absurd hrt (List.not_mem_nil r)
        · by_cases hd : tryRead (c1.genValue t) ≠ tryRead (c2.genValue t)
          · rw [if_pos hd, agregar_dif] at hrt
            rcases List.mem_singleton.mp hrt with rfl
            exact fun he => hteq he
          · rw [if_neg hd] at hrt
            exact absurd hrt (List.not_mem_nil r)

/-- Closed witness for C3: two snapshots both owning sequence `GEN_ID` with
unreadable values produce no record named `GEN_ID`. -/
theorem no_noise_invariant_witness :
    ((comparators.comparar_generadores dbGenUnreadable dbGenUnreadable emptyGenState).1.all
      (fun r => r.nombre != "GEN_ID")) = true := by
  have h := no_noise_invariant.2.2.2.2.2.2.2.2 dbGenUnreadable dbGenUnreadable emptyGenState
    "GEN_ID" (by decide) (by decide) rfl
  apply List.all_eq_true.mpr
  intro r hr
  simpa [bne_iff_ne] using h r hr
